import Mathlib

/-!
Formal model of the phishing-portal campaign subsystem
(`phishing_portal/campaigns`): CSV recipient import, campaign email
dispatch, scenario body rendering, tracking-event capture, campaign
metrics and the inbox views.  Python strings are modelled as `List Char`,
database tables as Lean lists, and every fallible operation returns an
explicit error value.  Library collaborators (the `csv` module, Django's
template engine, `strip_tags`, `escape`, `validate_email` and `hashlib`)
are modelled by executable Lean functions documented at their definition.
-/

set_option maxRecDepth 40000

/-- Text is modelled as a list of characters (Python `str`). -/
abbrev Str := List Char

/-- Coerce a Lean string literal to the `Str` model. -/
def str (s : String) : Str := s.data

/-- Model of Python `str.strip()`: remove leading and trailing whitespace. -/
def strip (s : Str) : Str :=
  ((s.dropWhile Char.isWhitespace).reverse.dropWhile Char.isWhitespace).reverse

/-- Model of Python `str.lower()` (adequate for the ASCII emails handled here). -/
def lowerStr (s : Str) : Str := s.map Char.toLower

/-- Decimal rendering of a natural number. -/
def natToStr (n : Nat) : Str := (Nat.repr n).data

/-- Split a string on a separator character, Python `str.split(sep)` style:
`splitOnChar c s` always returns at least one (possibly empty) piece. -/
def splitOnChar (sep : Char) : Str → List Str
  | [] => [[]]
  | c :: rest =>
    match splitOnChar sep rest with
    | [] => [[c]]
    | h :: t => if c = sep then [] :: h :: t else (c :: h) :: t

/-- Model of `django.core.validators.validate_email` (an external library
collaborator): accepts `local@domain` with exactly one `@`, a nonempty
space-free local part, and a domain of at least two nonempty space-free
dot-separated labels. -/
def validEmail (e : Str) : Bool :=
  match splitOnChar '@' e with
  | [lp, domain] =>
    let labels := splitOnChar '.' domain
    !lp.isEmpty && lp.all (fun c => c ≠ ' ') && decide (2 ≤ labels.length) &&
      labels.all (fun l => !l.isEmpty && l.all (fun c => c ≠ ' '))
  | _ => false

/-- Model of Python `str.replace('\n', '\n\n')`. -/
def replaceNl (s : Str) : Str := s.flatMap (fun c => if c = '\n' then [c, c] else [c])

/-- Model of `django.utils.html.escape` (library collaborator): HTML-escape
the five special characters. -/
def escapeHtml (s : Str) : Str :=
  s.flatMap (fun c =>
    if c = '&' then str "&amp;"
    else if c = '<' then str "&lt;"
    else if c = '>' then str "&gt;"
    else if c = '"' then str "&quot;"
    else if c = Char.ofNat 39 then str "&#x27;"
    else [c])

/-- State machine for `stripTags`: the flag records whether the scanner is
inside a `<...>` tag. -/
def stripTagsAux : Bool → Str → Str
  | _, [] => []
  | true, c :: rest => if c = '>' then stripTagsAux false rest else stripTagsAux true rest
  | false, c :: rest => if c = '<' then stripTagsAux true rest else c :: stripTagsAux false rest

/-- Model of `django.utils.html.strip_tags` (library collaborator): remove
every `<...>` tag, keeping the text between tags. -/
def stripTags (s : Str) : Str := stripTagsAux false s

/-- Join a list of lines with `'\n'` (Python `'\n'.join(...)`). -/
def joinNl : List Str → Str
  | [] => []
  | [x] => x
  | x :: y :: t => x ++ '\n' :: joinNl (y :: t)

/-- Fuel-indexed worker for `replaceSub`; fuel bounds the number of emitted
pieces so the recursion is structural. -/
def replaceSubFuel (pat rep : Str) : Nat → Str → Str
  | 0, s => s
  | _ + 1, [] => []
  | fuel + 1, c :: rest =>
    if !pat.isEmpty && pat.isPrefixOf (c :: rest) then
      rep ++ replaceSubFuel pat rep fuel ((c :: rest).drop pat.length)
    else
      c :: replaceSubFuel pat rep fuel rest

/-- Replace every occurrence of `pat` by `rep`, scanning left to right
(Python `str.replace`). -/
def replaceSub (pat rep s : Str) : Str := replaceSubFuel pat rep s.length s

/-! ## SHA-256 (model of `hashlib.sha256(...).hexdigest()`)

A complete executable SHA-256 over the UTF-8 encoding of a string.  The
round constants are derived, as in the FIPS 180-4 definition, from the
fractional parts of the square/cube roots of the first primes, via exact
integer square/cube roots. -/

/-- UTF-8 encoding of one character (model of Python `str.encode("utf-8")`). -/
def utf8Char (c : Char) : List Nat :=
  let n := c.toNat
  if n < 128 then [n]
  else if n < 2048 then [192 ||| (n >>> 6), 128 ||| (n &&& 63)]
  else if n < 65536 then
    [224 ||| (n >>> 12), 128 ||| ((n >>> 6) &&& 63), 128 ||| (n &&& 63)]
  else
    [240 ||| (n >>> 18), 128 ||| ((n >>> 12) &&& 63),
     128 ||| ((n >>> 6) &&& 63), 128 ||| (n &&& 63)]

/-- UTF-8 encoding of a string as a byte list. -/
def utf8Encode (s : Str) : List Nat := s.flatMap utf8Char

def pow32 : Nat := 4294967296

def mask32 (n : Nat) : Nat := n % pow32

/-- 32-bit right rotation. -/
def rotr32 (x n : Nat) : Nat := mask32 ((x >>> n) ||| (x <<< (32 - n)))

/-- 32-bit complement. -/
def bnot32 (x : Nat) : Nat := 4294967295 ^^^ x

def shaCh (x y z : Nat) : Nat := (x &&& y) ^^^ (bnot32 x &&& z)

def shaMaj (x y z : Nat) : Nat := (x &&& y) ^^^ (x &&& z) ^^^ (y &&& z)

def bigSigma0 (x : Nat) : Nat := rotr32 x 2 ^^^ rotr32 x 13 ^^^ rotr32 x 22

def bigSigma1 (x : Nat) : Nat := rotr32 x 6 ^^^ rotr32 x 11 ^^^ rotr32 x 25

def smallSigma0 (x : Nat) : Nat := rotr32 x 7 ^^^ rotr32 x 18 ^^^ (x >>> 3)

def smallSigma1 (x : Nat) : Nat := rotr32 x 17 ^^^ rotr32 x 19 ^^^ (x >>> 10)

/-- Bisection step for the integer cube root. -/
def cbrtSearch (n : Nat) : Nat → Nat → Nat → Nat
  | 0, lo, _ => lo
  | fuel + 1, lo, hi =>
    if hi ≤ lo + 1 then lo
    else
      let mid := (lo + hi) / 2
      if mid * mid * mid ≤ n then cbrtSearch n fuel mid hi else cbrtSearch n fuel lo mid

/-- Integer cube root: the largest `k` with `k^3 ≤ n`. -/
def icbrt (n : Nat) : Nat := cbrtSearch n 200 0 (n + 1)

/-- The first 64 primes, sources of the SHA-256 round constants. -/
def sha64Primes : List Nat :=
  [2, 3, 5, 7, 11, 13, 17, 19, 23, 29, 31, 37, 41, 43, 47, 53,
   59, 61, 67, 71, 73, 79, 83, 89, 97, 101, 103, 107, 109, 113, 127, 131,
   137, 139, 149, 151, 157, 163, 167, 173, 179, 181, 191, 193, 197, 199, 211, 223,
   227, 229, 233, 239, 241, 251, 257, 263, 269, 271, 277, 281, 283, 293, 307, 311]

/-- Round constants: first 32 bits of the fractional parts of the cube roots
of the first 64 primes. -/
def shaK : List Nat := sha64Primes.map (fun p => icbrt (p * 2 ^ 96) % pow32)

/-- Initial hash value: first 32 bits of the fractional parts of the square
roots of the first 8 primes. -/
def shaH0 : List Nat := (sha64Primes.take 8).map (fun p => Nat.sqrt (p * 2 ^ 64) % pow32)

/-- SHA-256 padding: append `0x80`, zeros, and the 64-bit big-endian bit length. -/
def shaPad (msg : List Nat) : List Nat :=
  let len := msg.length
  let bitLen := 8 * len
  let zeros := (119 - len % 64) % 64
  msg ++ [128] ++ List.replicate zeros 0 ++
    ((List.range 8).map (fun i => (bitLen >>> (8 * (7 - i))) % 256))

/-- Split a byte list into 64-byte blocks (fuel-indexed for structural
recursion; the fuel is an upper bound on the number of blocks). -/
def chunks64 : Nat → List Nat → List (List Nat)
  | 0, _ => []
  | _ + 1, [] => []
  | fuel + 1, l => l.take 64 :: chunks64 fuel (l.drop 64)

/-- The first 16 message-schedule words of one block (big-endian). -/
def initW (block : List Nat) : List Nat :=
  (List.range 16).map (fun i =>
    block.getD (4 * i) 0 * 16777216 + block.getD (4 * i + 1) 0 * 65536 +
      block.getD (4 * i + 2) 0 * 256 + block.getD (4 * i + 3) 0)

/-- Extend the message schedule by `n` further words. -/
def extendW : Nat → List Nat → List Nat
  | 0, w => w
  | n + 1, w =>
    let i := w.length
    let nw := mask32 (smallSigma1 (w.getD (i - 2) 0) + w.getD (i - 7) 0 +
      smallSigma0 (w.getD (i - 15) 0) + w.getD (i - 16) 0)
    extendW n (w ++ [nw])

/-- One compression round; the state is the eight working variables. -/
def shaRound (w : List Nat) (st : List Nat) (i : Nat) : List Nat :=
  match st with
  | [a, b, c, d, e, f, g, h] =>
    let t1 := mask32 (h + bigSigma1 e + shaCh e f g + shaK.getD i 0 + w.getD i 0)
    let t2 := mask32 (bigSigma0 a + shaMaj a b c)
    [mask32 (t1 + t2), a, b, c, mask32 (d + t1), e, f, g]
  | other => other

/-- Process one 64-byte block. -/
def shaBlock (h : List Nat) (block : List Nat) : List Nat :=
  let w := extendW 48 (initW block)
  let st := (List.range 64).foldl (shaRound w) h
  (h.zip st).map (fun p => mask32 (p.1 + p.2))

/-- The eight 32-bit words of the SHA-256 digest of a byte string. -/
def sha256Words (msg : List Nat) : List Nat :=
  let padded := shaPad msg
  (chunks64 (padded.length / 64 + 1) padded).foldl shaBlock shaH0

/-- The sixteen lowercase hex digits. -/
def hexChars : Str := str "0123456789abcdef"

/-- One lowercase hex digit. -/
def hexDigit (n : Nat) : Char := hexChars.getD (n % 16) '0'

/-- Render one 32-bit word as eight hex digits. -/
def wordHex (w : Nat) : Str := (List.range 8).map (fun i => hexDigit ((w >>> (4 * (7 - i))) % 16))

/-- Model of `hashlib.sha256(s.encode("utf-8")).hexdigest()`. -/
def sha256Hex (s : Str) : Str := (sha256Words (utf8Encode s)).flatMap wordHex

/-! ## Data model (`campaigns/models.py`)

Rows are Lean structures, tables are lists; auto-increment ids and the
UUID tracking tokens are modelled by counters carried in the database
state.  Fields that no claimed computation reads (timestamps, sender
display fields, learning points, audit rows) are omitted. -/

/-- One `Recipient` row (`models.Recipient`). -/
structure Recipient where
  id : Nat
  email : Str
  firstName : Str
  lastName : Str
  department : Str
deriving DecidableEq, Repr

/-- One `CampaignRecipient` row (`models.CampaignRecipient`): the
campaign-to-recipient link carrying the unique `tracking_id` token and the
`is_active` flag.  The UUID token is modelled as a natural number issued
by a counter. -/
structure CampaignRecipient where
  id : Nat
  campaignId : Nat
  recipientId : Nat
  trackingId : Nat
  isActive : Bool
deriving DecidableEq, Repr

/-- One `Event` row (`models.Event`): `eventType` is one of `"OPEN"`,
`"CLICK"`, `"REPORT"`; `ipHash` stores the hashed source address. -/
structure EventRec where
  linkId : Nat
  eventType : Str
  userAgent : Str
  ipHash : Str
deriving DecidableEq, Repr

/-- One `CampaignEmail` row (`models.CampaignEmail`): the persisted copy of
a dispatched email, read by the inbox views.  `linkId` is the
`recipient` foreign key (a `CampaignRecipient`); `sentAt` is an abstract
timestamp. -/
structure CampaignEmailRec where
  id : Nat
  campaignId : Nat
  linkId : Nat
  subject : Str
  bodyText : Str
  bodyHtml : Str
  sentAt : Nat
  isRead : Bool
deriving DecidableEq, Repr

/-- One `EmailTemplate` row (`models.EmailTemplate`); `scenKind` models the
`scenario` field, one of the `EmailTemplate.Scenario` choice strings. -/
structure EmailTemplate where
  name : Str
  subject : Str
  body : Str
  scenKind : Str
deriving DecidableEq, Repr

/-- One `Campaign` row (`models.Campaign`), with its `email_template`
foreign key inlined. -/
structure Campaign where
  id : Nat
  name : Str
  templ : EmailTemplate
deriving DecidableEq, Repr

/-- The database state touched by the campaign subsystem. -/
structure Db where
  recipients : List Recipient
  links : List CampaignRecipient
  events : List EventRec
  campaignEmails : List CampaignEmailRec
  auditLogs : List Str
  nextRecipientId : Nat
  nextLinkId : Nat
  nextTrackingId : Nat
  nextEmailId : Nat
deriving DecidableEq, Repr

/-- The empty database. -/
def emptyDb : Db :=
  { recipients := [], links := [], events := [], campaignEmails := [], auditLogs := []
    nextRecipientId := 1, nextLinkId := 1, nextTrackingId := 1, nextEmailId := 1 }

/-- The `EmailTemplate.Scenario` choice values. -/
def scenIT_ALERT : Str := str "IT_ALERT"

def scenPASSWORD_RESET : Str := str "PASSWORD_RESET"

def scenPAYROLL : Str := str "PAYROLL"

def scenDELIVERY : Str := str "DELIVERY"

def scenHR_POLICY : Str := str "HR_POLICY"

def scenGENERAL : Str := str "GENERAL"

/-- The `Event.Type` choice values. -/
def evOPEN : Str := str "OPEN"

def evCLICK : Str := str "CLICK"

def evREPORT : Str := str "REPORT"

/-! ## Scenario body builders (`campaigns/services.py`)

The HTML layouts are the source's f-string literals verbatim, split at
their interpolation points. -/

/-- The recipient context dictionary built by `send_campaign_emails`
(`first_name`, `full_name`, `email`; the `campaign` entry is carried only
for template interpolation and is not read by any claimed computation). -/
structure RecipientCtx where
  firstName : Str
  fullName : Str
  email : Str
deriving DecidableEq, Repr

/-- `_safe_name`: first name, else full name, else the generic fallback. -/
def safeName (ctx : RecipientCtx) : Str :=
  if !ctx.firstName.isEmpty then ctx.firstName
  else if !ctx.fullName.isEmpty then ctx.fullName
  else str "Colleague"

/-- The `\x7b\x7b first_name \x7d\x7d` placeholder. -/
def phFirstName : Str := str "\x7b\x7b first_name \x7d\x7d"

/-- The `\x7b\x7b full_name \x7d\x7d` placeholder. -/
def phFullName : Str := str "\x7b\x7b full_name \x7d\x7d"

/-- The `\x7b\x7b email \x7d\x7d` placeholder. -/
def phEmail : Str := str "\x7b\x7b email \x7d\x7d"

/-- Model of `render_body` / the Django template engine (library
collaborator): substitute the documented context placeholders into the
template body. -/
def renderBody (body : Str) (ctx : RecipientCtx) : Str :=
  replaceSub phEmail ctx.email
    (replaceSub phFullName ctx.fullName (replaceSub phFirstName ctx.firstName body))
def itAlertHtml1 : Str :=
  str "
    <table width=\"100%\" cellpadding=\"0\" cellspacing=\"0\" style=\"background-color:#F3F4F6; font-family:system-ui,-apple-system,BlinkMacSystemFont,'Segoe UI',Roboto,'Helvetica Neue',Arial,sans-serif;\">
      <tr>
        <td align=\"center\" style=\"padding:40px 20px;\">
          <table width=\"600\" cellpadding=\"0\" cellspacing=\"0\" style=\"background-color:#ffffff; border-radius:6px; box-shadow:0 1px 3px rgba(0,0,0,0.1); max-width:600px; border:1px solid #E5E7EB;\">
            <!-- Header -->
            <tr>
              <td style=\"background-color:#F3F4F6; padding:24px 32px; border-bottom:1px solid #E5E7EB;\">
                <table width=\"100%\" cellpadding=\"0\" cellspacing=\"0\">
                  <tr>
                    <td>
                      <div style=\"color:#1F2937; font-size:18px; font-weight:600; margin-bottom:4px;\">Indigo IT Security</div>
                      <div style=\"color:#6B7280; font-size:13px;\">Security Notification</div>
                    </td>
                  </tr>
                </table>
              </td>
            </tr>
            
            <!-- Content -->
            <tr>
              <td style=\"padding:32px;\">
                <p style=\"margin:0 0 20px 0; font-size:16px; line-height:22px; color:#1F2937;\">Hi "

def itAlertHtml2 : Str :=
  str ",</p>

                <p style=\"margin:0 0 20px 0; font-size:15px; line-height:22px; color:#1F2937;\">
                  We detected a new sign-in to your <strong>Indigo Employee Portal</strong> account 
                  from a device or location we don't recognise.
                </p>

                <div style=\"background-color:#FEE2E2; border:1px solid #FCA5A5; padding:16px; margin:24px 0; border-radius:4px;\">
                  <p style=\"margin:0; font-size:14px; line-height:20px; color:#991B1B;\">
                    <strong>Important:</strong> If this was you, no further action is required. 
                    If this wasn't you, please review your recent activity immediately.
                  </p>
                </div>
                
                <table width=\"100%\" cellpadding=\"0\" cellspacing=\"0\" style=\"margin:28px 0;\">
                  <tr>
                    <td style=\"padding:12px 0;\">
                      <a href=\""

def itAlertHtml3 : Str :=
  str "\" style=\"background-color:#2563EB; color:#FFFFFF; text-decoration:none; padding:12px 24px; border-radius:6px; font-weight:500; font-size:15px; display:inline-block;\">
                        Review Account Activity
                      </a>
                    </td>
                  </tr>
                </table>
                
                <div style=\"border-top:1px solid #E5E7EB; margin-top:32px; padding-top:24px;\">
                  <p style=\"margin:0 0 8px 0; font-size:14px; line-height:20px; color:#6B7280;\">
                    Kind regards,<br>
                    <strong style=\"color:#1F2937;\">Indigo IT Security Team</strong><br>
                    <a href=\"mailto:security@indigo.co.uk\" style=\"color:#2563EB; text-decoration:none;\">security@indigo.co.uk</a>
                  </p>
                </div>
              </td>
            </tr>
          </table>
        </td>
      </tr>
    </table>
    "

-- itAlert: html = Html1 ++ recipient_name ++ Html2 ++ click_url ++ Html3

def passwordResetHtml1 : Str :=
  str "
    <table width=\"100%\" cellpadding=\"0\" cellspacing=\"0\" style=\"background-color:#F3F4F6; font-family:system-ui,-apple-system,BlinkMacSystemFont,'Segoe UI',Roboto,'Helvetica Neue',Arial,sans-serif;\">
      <tr>
        <td align=\"center\" style=\"padding:40px 20px;\">
          <table width=\"600\" cellpadding=\"0\" cellspacing=\"0\" style=\"background-color:#ffffff; border-radius:6px; box-shadow:0 1px 3px rgba(0,0,0,0.1); max-width:600px; border:1px solid #E5E7EB;\">
            <!-- Header -->
            <tr>
              <td style=\"background-color:#F3F4F6; padding:24px 32px; border-bottom:1px solid #E5E7EB;\">
                <table width=\"100%\" cellpadding=\"0\" cellspacing=\"0\">
                  <tr>
                    <td>
                      <div style=\"color:#1F2937; font-size:18px; font-weight:600; margin-bottom:4px;\">Indigo Accounts</div>
                      <div style=\"color:#6B7280; font-size:13px;\">Password Reset Request</div>
                    </td>
                  </tr>
                </table>
              </td>
            </tr>
            
            <!-- Content -->
            <tr>
              <td style=\"padding:32px;\">
                <p style=\"margin:0 0 20px 0; font-size:16px; line-height:22px; color:#1F2937;\">Hello "

def passwordResetHtml2 : Str :=
  str ",</p>

                <p style=\"margin:0 0 20px 0; font-size:15px; line-height:22px; color:#1F2937;\">
                  A request was received to reset the password for your <strong>Indigo Single Sign-On</strong> account.
                </p>

                <p style=\"margin:0 0 24px 0; font-size:15px; line-height:22px; color:#1F2937;\">
                  If you made this request, please confirm it by clicking the button below. This link will expire in 24 hours.
                </p>

                <table width=\"100%\" cellpadding=\"0\" cellspacing=\"0\" style=\"margin:28px 0;\">
                  <tr>
                    <td style=\"padding:12px 0;\">
                      <a href=\""

def passwordResetHtml3 : Str :=
  str "\" style=\"background-color:#2563EB; color:#FFFFFF; text-decoration:none; padding:12px 24px; border-radius:6px; font-weight:500; font-size:15px; display:inline-block;\">
                        Confirm Password Reset
                      </a>
                    </td>
                  </tr>
                </table>
                
                <div style=\"background-color:#FEE2E2; border:1px solid #FCA5A5; padding:16px; margin:24px 0; border-radius:4px;\">
                  <p style=\"margin:0; font-size:14px; line-height:20px; color:#991B1B;\">
                    <strong>Important:</strong> If you did <strong>not</strong> make this request, please contact IT Support immediately 
                    and do not click the button above.
                  </p>
                </div>
                
                <div style=\"border-top:1px solid #E5E7EB; margin-top:32px; padding-top:24px;\">
                  <p style=\"margin:0 0 8px 0; font-size:14px; line-height:20px; color:#6B7280;\">
                    Best regards,<br>
                    <strong style=\"color:#1F2937;\">Indigo IT Support Team</strong><br>
                    <a href=\"mailto:support@indigo.co.uk\" style=\"color:#2563EB; text-decoration:none;\">support@indigo.co.uk</a>
                  </p>
                </div>
              </td>
            </tr>
          </table>
        </td>
      </tr>
    </table>
    "

-- passwordReset: html = Html1 ++ recipient_name ++ Html2 ++ click_url ++ Html3

def payrollHtml1 : Str :=
  str "
    <table width=\"100%\" cellpadding=\"0\" cellspacing=\"0\" style=\"background-color:#F3F4F6; font-family:system-ui,-apple-system,BlinkMacSystemFont,'Segoe UI',Roboto,'Helvetica Neue',Arial,sans-serif;\">
      <tr>
        <td align=\"center\" style=\"padding:40px 20px;\">
          <table width=\"600\" cellpadding=\"0\" cellspacing=\"0\" style=\"background-color:#ffffff; border-radius:6px; box-shadow:0 1px 3px rgba(0,0,0,0.1); max-width:600px; border:1px solid #E5E7EB;\">
            <!-- Header -->
            <tr>
              <td style=\"background-color:#F3F4F6; padding:24px 32px; border-bottom:1px solid #E5E7EB;\">
                <table width=\"100%\" cellpadding=\"0\" cellspacing=\"0\">
                  <tr>
                    <td>
                      <div style=\"color:#1F2937; font-size:18px; font-weight:600; margin-bottom:4px;\">Indigo Payroll</div>
                      <div style=\"color:#6B7280; font-size:13px;\">Payroll Update</div>
                    </td>
                  </tr>
                </table>
              </td>
            </tr>
            
            <!-- Content -->
            <tr>
              <td style=\"padding:32px;\">
                <p style=\"margin:0 0 20px 0; font-size:16px; line-height:22px; color:#1F2937;\">Dear "

def payrollHtml2 : Str :=
  str ",</p>

                <p style=\"margin:0 0 20px 0; font-size:15px; line-height:22px; color:#1F2937;\">
                  As part of our end-of-month payroll checks, we were unable to automatically verify your current bank details.
                </p>

                <p style=\"margin:0 0 24px 0; font-size:15px; line-height:22px; color:#1F2937;\">
                  To avoid any delay to your salary payment, please review and confirm your details in the Employee Payroll Portal.
                </p>

                <div style=\"background-color:#FEE2E2; border:1px solid #FCA5A5; padding:16px; margin:24px 0; border-radius:4px;\">
                  <p style=\"margin:0; font-size:14px; line-height:20px; color:#991B1B;\">
                    <strong>Important:</strong> Please complete this verification within 48 hours to ensure timely payment processing.
                  </p>
                </div>
                
                <table width=\"100%\" cellpadding=\"0\" cellspacing=\"0\" style=\"margin:28px 0;\">
                  <tr>
                    <td style=\"padding:12px 0;\">
                      <a href=\""

def payrollHtml3 : Str :=
  str "\" style=\"background-color:#2563EB; color:#FFFFFF; text-decoration:none; padding:12px 24px; border-radius:6px; font-weight:500; font-size:15px; display:inline-block;\">
                        Review Payroll Details
                      </a>
                    </td>
                  </tr>
                </table>

                <p style=\"margin:24px 0 0 0; font-size:14px; line-height:20px; color:#6B7280;\">
                  This verification should take less than two minutes to complete.
                </p>

                <div style=\"border-top:1px solid #E5E7EB; margin-top:32px; padding-top:24px;\">
                  <p style=\"margin:0 0 8px 0; font-size:14px; line-height:20px; color:#6B7280;\">
                    Best regards,<br>
                    <strong style=\"color:#1F2937;\">Indigo Payroll Team</strong><br>
                    <a href=\"mailto:payroll@indigo.co.uk\" style=\"color:#2563EB; text-decoration:none;\">payroll@indigo.co.uk</a>
                  </p>
                </div>
              </td>
            </tr>
          </table>
        </td>
      </tr>
    </table>
    "

-- payroll: html = Html1 ++ recipient_name ++ Html2 ++ click_url ++ Html3

def deliveryHtml1 : Str :=
  str "
    <table width=\"100%\" cellpadding=\"0\" cellspacing=\"0\" style=\"background-color:#F3F4F6; font-family:system-ui,-apple-system,BlinkMacSystemFont,'Segoe UI',Roboto,'Helvetica Neue',Arial,sans-serif;\">
      <tr>
        <td align=\"center\" style=\"padding:40px 20px;\">
          <table width=\"600\" cellpadding=\"0\" cellspacing=\"0\" style=\"background-color:#ffffff; border-radius:6px; box-shadow:0 1px 3px rgba(0,0,0,0.1); max-width:600px; border:1px solid #E5E7EB;\">
            <!-- Header -->
            <tr>
              <td style=\"background-color:#F3F4F6; padding:24px 32px; border-bottom:1px solid #E5E7EB;\">
                <table width=\"100%\" cellpadding=\"0\" cellspacing=\"0\">
                  <tr>
                    <td>
                      <div style=\"color:#1F2937; font-size:18px; font-weight:600; margin-bottom:4px;\">Indigo Courier Service</div>
                      <div style=\"color:#6B7280; font-size:13px;\">Delivery Notification</div>
                    </td>
                  </tr>
                </table>
              </td>
            </tr>
            
            <!-- Content -->
            <tr>
              <td style=\"padding:32px;\">
                <p style=\"margin:0 0 20px 0; font-size:16px; line-height:22px; color:#1F2937;\">Hi "

def deliveryHtml2 : Str :=
  str ",</p>

                <p style=\"margin:0 0 20px 0; font-size:15px; line-height:22px; color:#1F2937;\">
                  We attempted to deliver a package to your office address but were unable to complete the delivery.
                </p>

                <p style=\"margin:0 0 24px 0; font-size:15px; line-height:22px; color:#1F2937;\">
                  Please confirm your delivery preferences so we can re-schedule the drop-off at your earliest convenience.
                </p>

                <div style=\"background-color:#FEE2E2; border:1px solid #FCA5A5; padding:16px; margin:24px 0; border-radius:4px;\">
                  <p style=\"margin:0; font-size:14px; line-height:20px; color:#991B1B;\">
                    <strong>Important:</strong> If no action is taken within 48 hours, your package may be returned to the sender.
                  </p>
                </div>
                
                <table width=\"100%\" cellpadding=\"0\" cellspacing=\"0\" style=\"margin:28px 0;\">
                  <tr>
                    <td style=\"padding:12px 0;\">
                      <a href=\""

def deliveryHtml3 : Str :=
  str "\" style=\"background-color:#2563EB; color:#FFFFFF; text-decoration:none; padding:12px 24px; border-radius:6px; font-weight:500; font-size:15px; display:inline-block;\">
                        Manage Delivery
                      </a>
                    </td>
                  </tr>
                </table>
                
                <div style=\"border-top:1px solid #E5E7EB; margin-top:32px; padding-top:24px;\">
                  <p style=\"margin:0 0 8px 0; font-size:14px; line-height:20px; color:#6B7280;\">
                    Best regards,<br>
                    <strong style=\"color:#1F2937;\">Indigo Courier Service</strong><br>
                    <a href=\"mailto:courier@indigo.co.uk\" style=\"color:#2563EB; text-decoration:none;\">courier@indigo.co.uk</a>
                  </p>
                </div>
              </td>
            </tr>
          </table>
        </td>
      </tr>
    </table>
    "

-- delivery: html = Html1 ++ recipient_name ++ Html2 ++ click_url ++ Html3

def hrPolicyHtml1 : Str :=
  str "
    <table width=\"100%\" cellpadding=\"0\" cellspacing=\"0\" style=\"background-color:#F3F4F6; font-family:system-ui,-apple-system,BlinkMacSystemFont,'Segoe UI',Roboto,'Helvetica Neue',Arial,sans-serif;\">
      <tr>
        <td align=\"center\" style=\"padding:40px 20px;\">
          <table width=\"600\" cellpadding=\"0\" cellspacing=\"0\" style=\"background-color:#ffffff; border-radius:6px; box-shadow:0 1px 3px rgba(0,0,0,0.1); max-width:600px; border:1px solid #E5E7EB;\">
            <!-- Header -->
            <tr>
              <td style=\"background-color:#F3F4F6; padding:24px 32px; border-bottom:1px solid #E5E7EB;\">
                <table width=\"100%\" cellpadding=\"0\" cellspacing=\"0\">
                  <tr>
                    <td>
                      <div style=\"color:#1F2937; font-size:18px; font-weight:600; margin-bottom:4px;\">Indigo People &amp; Culture</div>
                      <div style=\"color:#6B7280; font-size:13px;\">Policy Update</div>
                    </td>
                  </tr>
                </table>
              </td>
            </tr>
            
            <!-- Content -->
            <tr>
              <td style=\"padding:32px;\">
                <p style=\"margin:0 0 20px 0; font-size:16px; line-height:22px; color:#1F2937;\">Dear "

def hrPolicyHtml2 : Str :=
  str ",</p>

                <p style=\"margin:0 0 20px 0; font-size:15px; line-height:22px; color:#1F2937;\">
                  We have recently updated our <strong>Employee Code of Conduct and Remote Working Policy</strong>. 
                  All staff are required to review and acknowledge the updated policy.
                </p>

                <div style=\"background-color:#FEE2E2; border:1px solid #FCA5A5; padding:16px; margin:24px 0; border-radius:4px;\">
                  <p style=\"margin:0; font-size:14px; line-height:20px; color:#991B1B;\">
                    <strong>Important:</strong> This acknowledgement is required and will form part of your employment record. 
                    Please complete this within 7 business days.
                  </p>
                </div>
                
                <table width=\"100%\" cellpadding=\"0\" cellspacing=\"0\" style=\"margin:28px 0;\">
                  <tr>
                    <td style=\"padding:12px 0;\">
                      <a href=\""

def hrPolicyHtml3 : Str :=
  str "\" style=\"background-color:#2563EB; color:#FFFFFF; text-decoration:none; padding:12px 24px; border-radius:6px; font-weight:500; font-size:15px; display:inline-block;\">
                        Review Policy &amp; Acknowledge
                      </a>
                    </td>
                  </tr>
                </table>
                
                <div style=\"border-top:1px solid #E5E7EB; margin-top:32px; padding-top:24px;\">
                  <p style=\"margin:0 0 8px 0; font-size:14px; line-height:20px; color:#6B7280;\">
                    Best regards,<br>
                    <strong style=\"color:#1F2937;\">Indigo People &amp; Culture Team</strong><br>
                    <a href=\"mailto:hr@indigo.co.uk\" style=\"color:#2563EB; text-decoration:none;\">hr@indigo.co.uk</a>
                  </p>
                </div>
              </td>
            </tr>
          </table>
        </td>
      </tr>
    </table>
    "

-- hrPolicy: html = Html1 ++ recipient_name ++ Html2 ++ click_url ++ Html3

def generalHtml1 : Str :=
  str "
    <table width=\"100%\" cellpadding=\"0\" cellspacing=\"0\" style=\"background-color:#F3F4F6; font-family:system-ui,-apple-system,BlinkMacSystemFont,'Segoe UI',Roboto,'Helvetica Neue',Arial,sans-serif;\">
      <tr>
        <td align=\"center\" style=\"padding:40px 20px;\">
          <table width=\"600\" cellpadding=\"0\" cellspacing=\"0\" style=\"background-color:#ffffff; border-radius:6px; box-shadow:0 1px 3px rgba(0,0,0,0.1); max-width:600px; border:1px solid #E5E7EB;\">
            <!-- Header -->
            <tr>
              <td style=\"background-color:#F3F4F6; padding:24px 32px; border-bottom:1px solid #E5E7EB;\">
                <table width=\"100%\" cellpadding=\"0\" cellspacing=\"0\">
                  <tr>
                    <td>
                      <div style=\"color:#1F2937; font-size:18px; font-weight:600; margin-bottom:4px;\">NepSoftware</div>
                      <div style=\"color:#6B7280; font-size:13px;\">Internal Communication</div>
                    </td>
                  </tr>
                </table>
              </td>
            </tr>
            
            <!-- Content -->
            <tr>
              <td style=\"padding:32px;\">
                "

def generalHtml2 : Str :=
  str "
                
                <div style=\"border-top:1px solid #E5E7EB; margin-top:32px; padding-top:24px;\">
                  <p style=\"margin:0 0 8px 0; font-size:14px; line-height:20px; color:#6B7280;\">
                    Kind regards,<br>
                    <strong style=\"color:#1F2937;\">NepSoftware</strong>
                  </p>
                </div>
              </td>
            </tr>
            
            <!-- Footer -->
            <tr>
              <td style=\"background-color:#F3F4F6; padding:20px 32px; border-radius:0 0 6px 6px; border-top:1px solid #E5E7EB;\">
                <p style=\"margin:0; font-size:12px; line-height:18px; color:#9CA3AF; text-align:left;\">
                  This message was sent via the NepSoftware Security Portal.
                </p>
              </td>
            </tr>
          </table>
        </td>
      </tr>
    </table>
    "

def paraOpen : Str :=
  str "<p style=\"margin:0 0 20px 0; font-size:15px; line-height:22px; color:#1F2937;\">"

def paraClose : Str :=
  str "</p>"

def nbspPara : Str :=
  str "<p style=\"margin:0 0 20px 0; font-size:15px; line-height:22px; color:#1F2937;\">&nbsp;</p>"

def htmlShell1 : Str :=
  str "
        <!DOCTYPE html>
        <html lang=\"en\">
          <head>
            <meta charset=\"UTF-8\">
            <meta name=\"viewport\" content=\"width=device-width, initial-scale=1.0\">
            <meta http-equiv=\"X-UA-Compatible\" content=\"IE=edge\">
          </head>
          <body style=\"margin:0; padding:0; background-color:#f5f7fa; font-family:-apple-system,BlinkMacSystemFont,'Segoe UI',Roboto,'Helvetica Neue',Arial,sans-serif;\">
            "

def htmlShell2 : Str :=
  str "
            <img src=\""

def htmlShell3 : Str :=
  str "\" width=\"1\" height=\"1\"
                 style=\"display:none; width:1px; height:1px; border:none;\" alt=\"\" />
          </body>
        </html>
        "

/-- `build_it_security_alert_body`. -/
def buildItSecurityAlertBody (_tpl : EmailTemplate) (ctx : RecipientCtx)
    (clickUrl _reportUrl : Str) : Str × Str :=
  let html := itAlertHtml1 ++ safeName ctx ++ itAlertHtml2 ++ clickUrl ++ itAlertHtml3
  (stripTags html, html)

/-- `build_password_reset_body`. -/
def buildPasswordResetBody (_tpl : EmailTemplate) (ctx : RecipientCtx)
    (clickUrl _reportUrl : Str) : Str × Str :=
  let html := passwordResetHtml1 ++ safeName ctx ++ passwordResetHtml2 ++ clickUrl ++
    passwordResetHtml3
  (stripTags html, html)

/-- `build_payroll_body`. -/
def buildPayrollBody (_tpl : EmailTemplate) (ctx : RecipientCtx)
    (clickUrl _reportUrl : Str) : Str × Str :=
  let html := payrollHtml1 ++ safeName ctx ++ payrollHtml2 ++ clickUrl ++ payrollHtml3
  (stripTags html, html)

/-- `build_delivery_failure_body`. -/
def buildDeliveryFailureBody (_tpl : EmailTemplate) (ctx : RecipientCtx)
    (clickUrl _reportUrl : Str) : Str × Str :=
  let html := deliveryHtml1 ++ safeName ctx ++ deliveryHtml2 ++ clickUrl ++ deliveryHtml3
  (stripTags html, html)

/-- `build_hr_policy_body`. -/
def buildHrPolicyBody (_tpl : EmailTemplate) (ctx : RecipientCtx)
    (clickUrl _reportUrl : Str) : Str × Str :=
  let html := hrPolicyHtml1 ++ safeName ctx ++ hrPolicyHtml2 ++ clickUrl ++ hrPolicyHtml3
  (stripTags html, html)

/-- The signature appended to the general scenario's plain-text body. -/
def kindRegardsSig : Str := str "\n\nKind regards,\nNepSoftware"

/-- The plain-text body of `build_general_email_body` before the signature:
`strip_tags` of the rendered body when nonempty, with newlines doubled. -/
def generalPlainCore (tpl : EmailTemplate) (ctx : RecipientCtx) : Str :=
  let bodyRendered := if tpl.body.isEmpty then [] else renderBody tpl.body ctx
  let t0 := if bodyRendered.isEmpty then [] else stripTags bodyRendered
  if t0.isEmpty then t0 else replaceNl t0

/-- `build_general_email_body`: the neutral internal-email layout; renders
the free-form template body into escaped HTML paragraphs and produces the
plain text from the rendered body plus the signature (no report footer). -/
def buildGeneralEmailBody (tpl : EmailTemplate) (ctx : RecipientCtx)
    (_clickUrl _reportUrl : Str) : Str × Str :=
  let bodyRendered := if tpl.body.isEmpty then [] else renderBody tpl.body ctx
  let paragraphs := (splitOnChar '\n' bodyRendered).filterMap (fun line =>
    let l := strip line
    if l.isEmpty then none else some (paraOpen ++ escapeHtml l ++ paraClose))
  let bodyHtml := if paragraphs.isEmpty then nbspPara else joinNl paragraphs
  let html := generalHtml1 ++ bodyHtml ++ generalHtml2
  (generalPlainCore tpl ctx ++ kindRegardsSig, html)

/-- The `SCENARIO_BUILDERS` lookup with its `build_it_security_alert_body`
default (`SCENARIO_BUILDERS.get(tpl.scenario, build_it_security_alert_body)`). -/
def builderFor (sc : Str) : EmailTemplate → RecipientCtx → Str → Str → Str × Str :=
  if sc = scenIT_ALERT then buildItSecurityAlertBody
  else if sc = scenPASSWORD_RESET then buildPasswordResetBody
  else if sc = scenPAYROLL then buildPayrollBody
  else if sc = scenDELIVERY then buildDeliveryFailureBody
  else if sc = scenHR_POLICY then buildHrPolicyBody
  else if sc = scenGENERAL then buildGeneralEmailBody
  else buildItSecurityAlertBody

/-- The report footer `send_campaign_emails` appends to the plain-text body
of every non-GENERAL scenario. -/
def footerText (reportUrl : Str) : Str :=
  str "\n\nIf you did not expect this message, please contact IT Support or report it here: " ++
    reportUrl ++ str "\n"

/-- The plain-text body assembled by `send_campaign_emails` (lines 526-537):
the scenario builder's text, with the report footer appended unless the
template's scenario is GENERAL. -/
def dispatchBodyText (tpl : EmailTemplate) (ctx : RecipientCtx) (clickUrl reportUrl : Str) : Str :=
  let textMain := (builderFor tpl.scenKind tpl ctx clickUrl reportUrl).1
  if tpl.scenKind = scenGENERAL then textMain else textMain ++ footerText reportUrl

/-- The HTML document shell with the 1x1 tracking pixel
(`send_campaign_emails` lines 540-554). -/
def wrapHtmlBody (htmlMain openUrl : Str) : Str :=
  htmlShell1 ++ htmlMain ++ htmlShell2 ++ openUrl ++ htmlShell3

/-! ## Campaign dispatch engine (`send_campaign_emails`, services.py) -/

/-- One assembled message handed to the mail-transport collaborator
(`EmailMultiAlternatives(...).send()`). -/
structure OutMail where
  toAddr : Str
  subject : Str
  bodyText : Str
  bodyHtml : Str
deriving DecidableEq, Repr

/-- `reverse("campaigns:track_open")` for a tracking token (relative form,
as used when no request is supplied; the UUID token is rendered by its
counter value). -/
def trackOpenUrl (tid : Nat) : Str := str "/campaigns/t/" ++ natToStr tid ++ str "/open/"

/-- `reverse("campaigns:track_click")` for a tracking token. -/
def trackClickUrl (tid : Nat) : Str := str "/campaigns/t/" ++ natToStr tid ++ str "/click/"

/-- `reverse("campaigns:track_report")` for a tracking token. -/
def trackReportUrl (tid : Nat) : Str := str "/campaigns/t/" ++ natToStr tid ++ str "/report/"

/-- `reverse("campaigns:landing_page")` for a tracking token. -/
def landingUrl (tid : Nat) : Str := str "/campaigns/l/" ++ natToStr tid ++ str "/"

/-- The placeholder context `send_campaign_emails` builds for one recipient. -/
def ctxFor (rec : Recipient) : RecipientCtx :=
  { firstName := rec.firstName
    fullName :=
      if !rec.firstName.isEmpty || !rec.lastName.isEmpty then
        strip (rec.firstName ++ [' '] ++ rec.lastName)
      else []
    email := rec.email }

/-- `send_campaign_emails(campaign)`: iterate the campaign's
`CampaignRecipient` links (the queryset filters on the campaign only),
render the scenario bodies with tracking URLs, hand one message per link
to the mail transport, and persist one `CampaignEmail` record per link.
Returns the updated database and the transport's outbox. -/
def sendCampaignEmails (campaign : Campaign) (db : Db) : Db × List OutMail :=
  (db.links.filter (fun cr => cr.campaignId == campaign.id)).foldl
    (fun acc cr =>
      match acc.1.recipients.find? (fun r => r.id == cr.recipientId) with
      | none => acc
      | some rec =>
        let tpl := campaign.templ
        let subject := tpl.subject
        let ctx := ctxFor rec
        let openUrl := trackOpenUrl cr.trackingId
        let clickUrl := trackClickUrl cr.trackingId
        let reportUrl := trackReportUrl cr.trackingId
        let htmlMain := (builderFor tpl.scenKind tpl ctx clickUrl reportUrl).2
        let bodyText := dispatchBodyText tpl ctx clickUrl reportUrl
        let htmlBody := wrapHtmlBody htmlMain openUrl
        let mail : OutMail :=
          { toAddr := rec.email, subject, bodyText, bodyHtml := htmlBody }
        let ce : CampaignEmailRec :=
          { id := acc.1.nextEmailId, campaignId := campaign.id, linkId := cr.id, subject
            bodyText, bodyHtml := htmlBody, sentAt := 0, isRead := false }
        ({ acc.1 with campaignEmails := acc.1.campaignEmails ++ [ce]
                      nextEmailId := acc.1.nextEmailId + 1 },
         acc.2 ++ [mail]))
    (db, [])

/-! ## CSV recipient import (`import_recipients_from_csv`, services.py)

The uploaded file is modelled after decoding and `csv.DictReader` parsing
as a header plus data rows; decode and csv-syntax failures, and the
write-only audit calls through `log_action_func`, are outside the model.
A raised `ValueError` with the transaction rolled back is modelled by an
`Except.error` result (the caller's database is unchanged). -/

/-- A decoded, parsed CSV upload. -/
structure CsvFile where
  header : List Str
  rows : List (List Str)
deriving DecidableEq, Repr

/-- The import's hard cap (`MAX_RECIPIENTS`). -/
def maxRecipients : Nat := 1000

/-- `row.get(key, "")` for a `csv.DictReader` row. -/
def rowGet (header row : List Str) (key : Str) : Str :=
  match (header.zip row).find? (fun p => p.1 == key) with
  | some p => p.2
  | none => []

/-- `Recipient.objects.get_or_create(email=..., defaults=...)`: look the
normalized email up, create with length-truncated defaults when absent.
Returns the row, whether it was created, and the new database. -/
def getOrCreateRecipient (email firstName lastName department : Str) (db : Db) :
    Recipient × Bool × Db :=
  match db.recipients.find? (fun r => r.email == email) with
  | some r => (r, false, db)
  | none =>
    let r : Recipient :=
      { id := db.nextRecipientId, email, firstName := firstName.take 100
        lastName := lastName.take 100, department := department.take 100 }
    (r, true, { db with recipients := db.recipients ++ [r]
                        nextRecipientId := db.nextRecipientId + 1 })

/-- `CampaignRecipient.objects.get_or_create(campaign=..., recipient=...)`:
the idempotent link creation; a new link draws a fresh tracking token and
is active by default. -/
def getOrCreateLink (campaignId recipientId : Nat) (db : Db) :
    CampaignRecipient × Bool × Db :=
  match db.links.find? (fun l => l.campaignId == campaignId && l.recipientId == recipientId) with
  | some l => (l, false, db)
  | none =>
    let l : CampaignRecipient :=
      { id := db.nextLinkId, campaignId, recipientId, trackingId := db.nextTrackingId
        isActive := true }
    (l, true, { db with links := db.links ++ [l], nextLinkId := db.nextLinkId + 1
                        nextTrackingId := db.nextTrackingId + 1 })

def msgEmailRequired : Str := str "Email is required"

def msgInvalidEmail (email : Str) : Str := str "Invalid email format: " ++ email

def msgDuplicateEmail (email : Str) : Str := str "Duplicate email in file: " ++ email

def msgLimitExceeded : Str :=
  str "Recipient limit exceeded: Maximum 1000 recipients allowed per upload."

def msgEmptyCsv : Str := str "CSV file appears to be empty or invalid."

def msgMissingColumns : Str := str "Missing required columns: email"

def msgNoDataRows : Str := str "CSV file contains no data rows."

/-- The loop state of the import's row loop. -/
structure ImportState where
  db : Db
  created : Nat
  linked : Nat
  errorRows : List Nat
  errorDetails : List (Nat × Str)
  seen : List Str
  rowNum : Nat
deriving DecidableEq, Repr

/-- The returned counts and error report of a completed import. -/
structure ImportResult where
  created : Nat
  linked : Nat
  errorRows : List Nat
  errorDetails : List (Nat × Str)
deriving DecidableEq, Repr

/-- One iteration of the import's row loop: field extraction and trimming,
the empty/invalid/duplicate email row errors, the recipient-limit check,
and the two get-or-creates. -/
def processRow (campaignId : Nat) (header row : List Str) (st : ImportState) :
    Except Str ImportState :=
  let rowNum := st.rowNum + 1
  let email := strip (rowGet header row (str "email"))
  let firstName := strip (rowGet header row (str "first_name"))
  let lastName := strip (rowGet header row (str "last_name"))
  let department := strip (rowGet header row (str "department"))
  if email.isEmpty then
    .ok { st with rowNum, errorRows := st.errorRows ++ [rowNum]
                  errorDetails := st.errorDetails ++ [(rowNum, msgEmailRequired)] }
  else if !validEmail email then
    .ok { st with rowNum, errorRows := st.errorRows ++ [rowNum]
                  errorDetails := st.errorDetails ++ [(rowNum, msgInvalidEmail email)] }
  else
    let emailLower := lowerStr email
    if st.seen.contains emailLower then
      .ok { st with rowNum, errorRows := st.errorRows ++ [rowNum]
                    errorDetails := st.errorDetails ++ [(rowNum, msgDuplicateEmail email)] }
    else
      let seen := st.seen ++ [emailLower]
      if maxRecipients ≤ st.created + st.linked then
        .error msgLimitExceeded
      else
        let gr := getOrCreateRecipient emailLower firstName lastName department st.db
        let created := if gr.2.1 then st.created + 1 else st.created
        let gl := getOrCreateLink campaignId gr.1.id gr.2.2
        let linked := if gl.2.1 then st.linked + 1 else st.linked
        .ok { db := gl.2.2, created, linked, errorRows := st.errorRows
              errorDetails := st.errorDetails, seen, rowNum }

/-- The import's row loop. -/
def processRows (campaignId : Nat) (header : List Str) :
    List (List Str) → ImportState → Except Str ImportState
  | [], st => .ok st
  | row :: rest, st =>
    match processRow campaignId header row st with
    | .error e => .error e
    | .ok st' => processRows campaignId header rest st'

/-- `import_recipients_from_csv(file, campaign, user)`: header validation,
the atomic row loop, and the no-data-rows check.  An `Except.error` models
a raised `ValueError` with every database write rolled back. -/
def importRecipientsFromCsv (file : CsvFile) (campaignId : Nat) (db : Db) :
    Except Str (Db × ImportResult) :=
  if file.header.isEmpty then .error msgEmptyCsv
  else if !file.header.contains (str "email") then .error msgMissingColumns
  else
    match processRows campaignId file.header file.rows
        { db, created := 0, linked := 0, errorRows := [], errorDetails := []
          seen := [], rowNum := 1 } with
    | .error e => .error e
    | .ok st =>
      if st.rowNum == 1 then .error msgNoDataRows
      else .ok (st.db, { created := st.created, linked := st.linked
                         errorRows := st.errorRows, errorDetails := st.errorDetails })

/-! ## Event capture, landing metrics and inbox (`campaigns/views.py`) -/

/-- `_hash_ip`: empty input stays empty, otherwise the SHA-256 hex digest of
the address. -/
def hashIp (ip : Str) : Str := if ip.isEmpty then [] else sha256Hex ip

/-- The outcome of a tracking request: `Http404`, the 1x1 pixel response,
or a redirect. -/
inductive TrackOutcome
  | notFound
  | pixelPng
  | redirectTo (url : Str)
deriving DecidableEq, Repr

/-- `_log_event(tracking_id, event_type, request)`: resolve the token
against active links only, and append one `Event` row with the truncated
user agent and the hashed source address.  `none` models the raised
`Http404` (no row is written). -/
def logEvent (trackingId : Nat) (eventType ua ip : Str) (db : Db) :
    Option (Db × CampaignRecipient) :=
  match db.links.find? (fun l => l.trackingId == trackingId && l.isActive) with
  | none => none
  | some cr =>
    some ({ db with events := db.events ++
              [{ linkId := cr.id, eventType, userAgent := ua.take 255, ipHash := hashIp ip }] },
          cr)

/-- `track_open`: record an OPEN event and serve the pixel. -/
def trackOpenView (tid : Nat) (ua ip : Str) (db : Db) : TrackOutcome × Db :=
  match logEvent tid evOPEN ua ip db with
  | none => (.notFound, db)
  | some (db', _) => (.pixelPng, db')

/-- `track_click`: record a CLICK event and redirect to the landing page. -/
def trackClickView (tid : Nat) (ua ip : Str) (db : Db) : TrackOutcome × Db :=
  match logEvent tid evCLICK ua ip db with
  | none => (.notFound, db)
  | some (db', _) => (.redirectTo (landingUrl tid), db')

/-- `track_report`: record a REPORT event and redirect to the landing page. -/
def trackReportView (tid : Nat) (ua ip : Str) (db : Db) : TrackOutcome × Db :=
  match logEvent tid evREPORT ua ip db with
  | none => (.notFound, db)
  | some (db', _) => (.redirectTo (landingUrl tid), db')

/-- Whether an event's link belongs to the campaign (the
`campaign_recipient__campaign=campaign` join of `campaign_detail`). -/
def linkInCampaign (db : Db) (campaignId linkId : Nat) : Bool :=
  db.links.any (fun l => l.id == linkId && l.campaignId == campaignId)

/-- `events.filter(event_type=...).values("campaign_recipient").distinct().count()`:
the number of distinct links of the campaign having at least one event of
the given type. -/
def uniqueEventCount (db : Db) (campaignId : Nat) (etype : Str) : Nat :=
  (((db.events.filter (fun e =>
      e.eventType == etype && linkInCampaign db campaignId e.linkId)).map
    (fun e => e.linkId)).toFinset).card

/-- The metrics block computed by the `campaign_detail` view. -/
structure CampaignMetrics where
  totalRecipients : Nat
  uniqueOpens : Nat
  uniqueClicks : Nat
  uniqueReports : Nat
deriving DecidableEq, Repr

/-- `campaign_detail`'s metrics: recipient count and distinct-link counts
per event type. -/
def campaignDetailMetrics (db : Db) (campaignId : Nat) : CampaignMetrics :=
  { totalRecipients := (db.links.filter (fun l => l.campaignId == campaignId)).length
    uniqueOpens := uniqueEventCount db campaignId evOPEN
    uniqueClicks := uniqueEventCount db campaignId evCLICK
    uniqueReports := uniqueEventCount db campaignId evREPORT }

/-- The authenticated requester of the inbox views. -/
structure UserRec where
  username : Str
  email : Str
deriving DecidableEq, Repr

/-- The outcome of `inbox_detail`: `Http404` or the rendered email page. -/
inductive InboxOutcome
  | notFound
  | page (subject bodyText bodyHtml : Str)
deriving DecidableEq, Repr

/-- `email_obj.recipient.recipient.email`: the address a stored campaign
email was sent to (following the two foreign keys). -/
def recipEmailOf (db : Db) (e : CampaignEmailRec) : Str :=
  match db.links.find? (fun l => l.id == e.linkId) with
  | none => []
  | some l =>
    match db.recipients.find? (fun r => r.id == l.recipientId) with
    | none => []
    | some r => r.email

/-- `inbox_detail(request, pk)`: look the `CampaignEmail` up by id
(`get_object_or_404`), deny with `Http404` unless the requester's email is
nonempty and equals the stored recipient email (writing an audit row), and
on success audit, mark the record read and render it. -/
def inboxDetail (user : UserRec) (pk : Nat) (db : Db) : InboxOutcome × Db :=
  match db.campaignEmails.find? (fun e => e.id == pk) with
  | none => (.notFound, db)
  | some e =>
    let recipientEmail := recipEmailOf db e
    if user.email.isEmpty || recipientEmail != user.email then
      (.notFound,
       { db with auditLogs := db.auditLogs ++
           [str "Permission denied - unauthorized email access"] })
    else
      (.page e.subject e.bodyText e.bodyHtml,
       { db with auditLogs := db.auditLogs ++ [str "Viewed email detail"]
                 campaignEmails := db.campaignEmails.map (fun x =>
                   if x.id == pk then { x with isRead := true } else x) })

/-- The normalized in-file duplicate-detection key of a CSV row
(`email.strip().lower()`). -/
def emailKey (header row : List Str) : Str := lowerStr (strip (rowGet header row (str "email")))

/-- Whether a normalized email already has both its `Recipient` row (first
match by email) and that recipient's `CampaignRecipient` link for the
campaign, so that both get-or-creates of the import loop are no-ops. -/
def settled (campaignId : Nat) (db : Db) (key : Str) : Bool :=
  match db.recipients.find? (fun r => r.email == key) with
  | none => false
  | some r => (db.links.find? (fun l => l.campaignId == campaignId && l.recipientId == r.id)).isSome

/-- The distinctive text of the report footer. -/
def footerMarker : Str := str "If you did not expect this message"

/-! ## Concrete fixtures used by counterexamples and witnesses -/

def uaEx : Str := str "Mozilla/5.0"

def ipEx : Str := str "1.2.3.4"

def recipientAliceEx : Recipient :=
  { id := 1, email := str "alice@example.com", firstName := str "Alice"
    lastName := [], department := [] }

def tplGeneralEx : EmailTemplate :=
  { name := str "General update", subject := str "Team update"
    body := str "Hello \x7b\x7b first_name \x7d\x7d,\nThe all-hands moved to Friday."
    scenKind := scenGENERAL }

def tplPayrollEx : EmailTemplate :=
  { name := str "Payroll check", subject := str "Payroll verification", body := []
    scenKind := scenPAYROLL }

def campaignEx : Campaign := { id := 7, name := str "Awareness drive", templ := tplGeneralEx }

def linkInactiveEx : CampaignRecipient :=
  { id := 1, campaignId := 7, recipientId := 1, trackingId := 42, isActive := false }

def linkActiveEx : CampaignRecipient := { linkInactiveEx with isActive := true }

/-- A database whose single campaign link is inactive. -/
def dbInactiveLink : Db :=
  { emptyDb with recipients := [recipientAliceEx], links := [linkInactiveEx]
                 nextRecipientId := 2, nextLinkId := 2, nextTrackingId := 43 }

/-- The same database with the link active. -/
def dbActiveLink : Db := { dbInactiveLink with links := [linkActiveEx] }

def ctxEx : RecipientCtx := ctxFor recipientAliceEx

/-- The database state after one OPEN capture against `dbActiveLink`. -/
def dbAfterOpenEx : Db :=
  { dbActiveLink with events :=
      [{ linkId := 1, eventType := evOPEN, userAgent := uaEx.take 255, ipHash := hashIp ipEx }] }

/-- After two identical OPEN captures. -/
def dbAfterOpen2Ex : Db :=
  { dbActiveLink with events := dbAfterOpenEx.events ++
      [{ linkId := 1, eventType := evOPEN, userAgent := uaEx.take 255, ipHash := hashIp ipEx }] }

/-- After three identical OPEN captures. -/
def dbAfterOpen3Ex : Db :=
  { dbActiveLink with events := dbAfterOpen2Ex.events ++
      [{ linkId := 1, eventType := evOPEN, userAgent := uaEx.take 255, ipHash := hashIp ipEx }] }

def emailRecEx : CampaignEmailRec :=
  { id := 3, campaignId := 7, linkId := 1, subject := str "Team update"
    bodyText := str "body", bodyHtml := str "<p>body</p>", sentAt := 5, isRead := false }

/-- A database with one stored inbox email belonging to Alice. -/
def dbInboxEx : Db := { dbActiveLink with campaignEmails := [emailRecEx], nextEmailId := 4 }

def userAliceEx : UserRec := { username := str "alice", email := str "alice@example.com" }

def userMalloryEx : UserRec := { username := str "mallory", email := str "mallory@example.com" }

/-- The spec's worked CSV example: a duplicate of Alice's address in row 4. -/
def csvDupEx : CsvFile :=
  { header := [str "email", str "first_name", str "last_name"]
    rows := [[str "alice@example.com", str "Alice", str "A"],
             [str "bob@example.com", str "Bob", str "B"],
             [str "alice@example.com", str "Alice2", str "X"]] }

/-- The `i`-th of a family of distinct well-formed addresses. -/
def freshEmail (i : Nat) : Str := 'u' :: (List.replicate i 'a' ++ str "@x.com")

/-- A CSV upload with 501 distinct well-formed addresses (501 data rows). -/
def csv501Ex : CsvFile :=
  { header := [str "email"]
    rows := (List.range 501).map (fun i => [freshEmail i]) }

/-- A small valid CSV upload used to exercise import idempotence. -/
def csvSmallEx : CsvFile :=
  { header := [str "email", str "first_name"]
    rows := [[str "Alice@Example.com", str "Alice"], [str "bob@example.com", str "Bob"]] }

/-- The first import of `csvSmallEx` into the empty database. -/
def importSmallFirst : Except Str (Db × ImportResult) :=
  importRecipientsFromCsv csvSmallEx 1 emptyDb

/-- The database produced by the first import of `csvSmallEx`. -/
def dbSmall1 : Db :=
  match importSmallFirst with
  | .ok p => p.1
  | .error _ => emptyDb

/-- The result row of the first import of `csvSmallEx`. -/
def resSmall1 : ImportResult :=
  match importSmallFirst with
  | .ok p => p.2
  | .error _ => { created := 0, linked := 0, errorRows := [], errorDetails := [] }

/-! ## Theorems -/

/-- Claim C6: on an empty recipient directory and a campaign with no links,
importing the CSV with header `email,first_name,last_name` and data rows
`alice@example.com,Alice,A`, `bob@example.com,Bob,B`,
`alice@example.com,Alice2,X` returns `created = 2`, `linked = 2`, and
exactly one row error, reporting a duplicate email for row 4 (1-indexed
with the header as row 1). -/
theorem c6_duplicate_row_worked_example :
    (importRecipientsFromCsv csvDupEx 1 emptyDb).map (fun p => p.2) =
      .ok { created := 2, linked := 2, errorRows := [4]
            errorDetails := [(4, str "Duplicate email in file: alice@example.com")] } := by
  rfl

/-- Claim C1 (code evidence): `send_campaign_emails` filters the campaign's
links only by campaign, so a link whose `is_active` flag is false still
receives a send: on a database whose single link for the campaign is
inactive, dispatch hands one message to the transport and persists one
`CampaignEmail` record for that inactive link. -/
theorem c1_dispatch_sends_to_inactive_link :
    linkInactiveEx.isActive = false ∧
    dbInactiveLink.links = [linkInactiveEx] ∧
    (sendCampaignEmails campaignEx dbInactiveLink).2.map (fun m => m.toAddr) =
      [str "alice@example.com"] ∧
    (sendCampaignEmails campaignEx dbInactiveLink).1.campaignEmails.map (fun e => e.linkId) =
      [linkInactiveEx.id] := by
  exact ⟨rfl, rfl, rfl, rfl⟩

theorem logEvent_eq_none_of_inactive (db : Db) (tid : Nat) (t ua ip : Str)
    (h : ∀ l ∈ db.links, l.trackingId = tid → l.isActive = false) :
    logEvent tid t ua ip db = none := by
  have hf : db.links.find? (fun l => l.trackingId == tid && l.isActive) = none := by
    rw [List.find?_eq_none]
    intro l hl
    simp only [Bool.and_eq_true, beq_iff_eq, not_and]
    intro ht
    rw [h l hl ht]
    simp
  unfold logEvent
  rw [hf]

/-- Claim C3: for every tracking token whose campaign link is inactive (and
for every token matching no link at all), each of the three capture
endpoints (open, click, report) fails with Not-Found, creates no `Event`
row, and leaves the database unchanged. -/
theorem c3_capture_rejects_inactive_and_unknown (db : Db) (tid : Nat) (ua ip : Str)
    (h : ∀ l ∈ db.links, l.trackingId = tid → l.isActive = false) :
    trackOpenView tid ua ip db = (.notFound, db) ∧
    trackClickView tid ua ip db = (.notFound, db) ∧
    trackReportView tid ua ip db = (.notFound, db) ∧
    (trackOpenView tid ua ip db).2.events = db.events := by
  have ho := logEvent_eq_none_of_inactive db tid evOPEN ua ip h
  have hc := logEvent_eq_none_of_inactive db tid evCLICK ua ip h
  have hr := logEvent_eq_none_of_inactive db tid evREPORT ua ip h
  refine ⟨?_, ?_, ?_, ?_⟩ <;> simp [trackOpenView, trackClickView, trackReportView, ho, hc, hr]

theorem c3_witness :
    trackOpenView 42 uaEx ipEx dbInactiveLink = (.notFound, dbInactiveLink) ∧
    trackClickView 42 uaEx ipEx dbInactiveLink = (.notFound, dbInactiveLink) ∧
    trackReportView 42 uaEx ipEx dbInactiveLink = (.notFound, dbInactiveLink) := by
  have h := c3_capture_rejects_inactive_and_unknown dbInactiveLink 42 uaEx ipEx (by decide)
  exact ⟨h.1, h.2.1, h.2.2.1⟩

/-- Claim C9: the inbox detail endpoint produces the same Not-Found outcome
when the requested id refers to a `CampaignEmail` whose recipient email
differs from the requester's email as when no `CampaignEmail` with that id
exists, so an unauthorized caller cannot distinguish the two cases from the
response. -/
theorem c9_inbox_notfound_indistinguishable (db1 db2 : Db) (u : UserRec) (pk1 pk2 : Nat)
    (e2 : CampaignEmailRec)
    (h1 : db1.campaignEmails.find? (fun e => e.id == pk1) = none)
    (h2 : db2.campaignEmails.find? (fun e => e.id == pk2) = some e2)
    (hne : recipEmailOf db2 e2 ≠ u.email) :
    (inboxDetail u pk1 db1).1 = .notFound ∧
    (inboxDetail u pk2 db2).1 = .notFound ∧
    (inboxDetail u pk1 db1).1 = (inboxDetail u pk2 db2).1 := by
  have ha : (inboxDetail u pk1 db1).1 = .notFound := by
    simp [inboxDetail, h1]
  have hb : (inboxDetail u pk2 db2).1 = .notFound := by
    have hbne : (recipEmailOf db2 e2 != u.email) = true := by
      simpa [bne_iff_ne] using hne
    simp [inboxDetail, h2, hbne]
  exact ⟨ha, hb, ha.trans hb.symm⟩

theorem c9_witness :
    (inboxDetail userMalloryEx 99 dbInboxEx).1 = .notFound ∧
    (inboxDetail userMalloryEx 3 dbInboxEx).1 = .notFound ∧
    (inboxDetail userMalloryEx 99 dbInboxEx).1 = (inboxDetail userMalloryEx 3 dbInboxEx).1 :=
  c9_inbox_notfound_indistinguishable dbInboxEx dbInboxEx userMalloryEx 99 3 emailRecEx
    (by rfl) (by rfl) (by decide)

/-- Claim C10: when the owning recipient views a stored inbox email, the
record's `is_read` flag becomes true while its other fields (subject,
bodies, timestamp, campaign and recipient references), every other record,
and the other tables are unchanged; when access is denied with Not-Found,
the email table is entirely unchanged. -/
theorem c10_inbox_view_mutates_only_read_flag (db : Db) (u : UserRec) (pk : Nat)
    (e : CampaignEmailRec)
    (hfind : db.campaignEmails.find? (fun x => x.id == pk) = some e) :
    (u.email.isEmpty = false → recipEmailOf db e = u.email →
      (inboxDetail u pk db).1 = .page e.subject e.bodyText e.bodyHtml ∧
      (inboxDetail u pk db).2.campaignEmails.find? (fun x => x.id == pk) =
        some { e with isRead := true } ∧
      (∀ x ∈ db.campaignEmails, x.id ≠ pk → x ∈ (inboxDetail u pk db).2.campaignEmails) ∧
      (inboxDetail u pk db).2.campaignEmails.length = db.campaignEmails.length ∧
      (inboxDetail u pk db).2.recipients = db.recipients ∧
      (inboxDetail u pk db).2.links = db.links ∧
      (inboxDetail u pk db).2.events = db.events) ∧
    ((u.email.isEmpty = true ∨ recipEmailOf db e ≠ u.email) →
      (inboxDetail u pk db).2.campaignEmails = db.campaignEmails) := by
  constructor
  · intro hue hre
    have hcond : (u.email.isEmpty || (recipEmailOf db e != u.email)) = false := by
      simp [hue, hre]
    have hpage : inboxDetail u pk db =
        (.page e.subject e.bodyText e.bodyHtml,
         { db with auditLogs := db.auditLogs ++ [str "Viewed email detail"]
                   campaignEmails := db.campaignEmails.map (fun x =>
                     if x.id == pk then { x with isRead := true } else x) }) := by
      simp [inboxDetail, hfind, hcond]
    have hid : (e.id == pk) = true := by
      have hx := List.find?_some hfind
      simpa using hx
    refine ⟨by rw [hpage], ?_, ?_, ?_, by rw [hpage], by rw [hpage], by rw [hpage]⟩
    · rw [hpage]
      show (db.campaignEmails.map (fun x =>
        if x.id == pk then { x with isRead := true } else x)).find? (fun x => x.id == pk) = _
      rw [List.find?_map]
      have hcomp : ((fun (x : CampaignEmailRec) => x.id == pk) ∘
          (fun x => if x.id == pk then { x with isRead := true } else x)) =
          (fun x => x.id == pk) := by
        funext x
        by_cases hx : x.id = pk <;> simp [hx]
      rw [hcomp, hfind]
      have hid2 : e.id = pk := by simpa using hid
      simp [hid2]
    · intro x hx hxne
      rw [hpage]
      show x ∈ db.campaignEmails.map (fun y =>
        if y.id == pk then { y with isRead := true } else y)
      refine List.mem_map.mpr ⟨x, hx, ?_⟩
      simp [hxne]
    · rw [hpage]
      simp
  · intro hdeny
    rcases hdeny with hue | hne
    · have hcond : (u.email.isEmpty || (recipEmailOf db e != u.email)) = true := by
        simp [hue]
      simp [inboxDetail, hfind, hcond]
    · have hcond : (u.email.isEmpty || (recipEmailOf db e != u.email)) = true := by
        simp [bne_iff_ne, hne]
      simp [inboxDetail, hfind, hcond]

theorem c10_witness :
    (inboxDetail userAliceEx 3 dbInboxEx).1 =
      .page emailRecEx.subject emailRecEx.bodyText emailRecEx.bodyHtml ∧
    (inboxDetail userAliceEx 3 dbInboxEx).2.campaignEmails.find? (fun x => x.id == 3) =
      some { emailRecEx with isRead := true } ∧
    (inboxDetail userAliceEx 3 dbInboxEx).2.events = dbInboxEx.events ∧
    (inboxDetail userMalloryEx 3 dbInboxEx).2.campaignEmails = dbInboxEx.campaignEmails := by
  have h := c10_inbox_view_mutates_only_read_flag dbInboxEx userAliceEx 3 emailRecEx (by rfl)
  have h2 := c10_inbox_view_mutates_only_read_flag dbInboxEx userMalloryEx 3 emailRecEx (by rfl)
  have hs := h.1 (by decide) (by decide)
  exact ⟨hs.1, hs.2.1, hs.2.2.2.2.2.2, h2.2 (Or.inr (by decide))⟩

theorem hexDigit_mem (n : Nat) : hexDigit n ∈ hexChars := by
  unfold hexDigit
  have hlt : n % 16 < hexChars.length := by
    have h16 : hexChars.length = 16 := rfl
    rw [h16]
    exact Nat.mod_lt _ (by norm_num)
  rw [List.getD_eq_getElem?_getD, List.getElem?_eq_getElem hlt]
  simp only [Option.getD_some]
  exact List.getElem_mem hlt

theorem sha256Hex_mem_hexChars {s : Str} {c : Char} (hc : c ∈ sha256Hex s) : c ∈ hexChars := by
  unfold sha256Hex at hc
  rw [List.mem_flatMap] at hc
  obtain ⟨w, _, hw⟩ := hc
  unfold wordHex at hw
  rw [List.mem_map] at hw
  obtain ⟨i, _, rfl⟩ := hw
  exact hexDigit_mem _

theorem sha256Hex_ne_of_nonhex_mem {ip : Str} {c : Char} (hc : c ∈ ip) (hnh : c ∉ hexChars) :
    sha256Hex ip ≠ ip := by
  intro he
  exact hnh (sha256Hex_mem_hexChars (he ▸ hc))

/-- Claim C8: every `Event` row created by the capture endpoints stores in
`ip_hash` either the empty string (no source address) or the SHA-256 hex
digest of the source address, and never the raw address itself (for any
address containing a dot or a colon, the stored value differs from it). -/
theorem c8_capture_hashes_source_ip (db : Db) (tid : Nat) (t ua ip : Str) (db' : Db)
    (cr : CampaignRecipient)
    (h : logEvent tid t ua ip db = some (db', cr)) :
    db'.events = db.events ++
      [{ linkId := cr.id, eventType := t, userAgent := ua.take 255, ipHash := hashIp ip }] ∧
    (ip.isEmpty = true → hashIp ip = []) ∧
    (ip.isEmpty = false → hashIp ip = sha256Hex ip) ∧
    (('.' ∈ ip ∨ ':' ∈ ip) → hashIp ip ≠ ip) := by
  refine ⟨?_, ?_, ?_, ?_⟩
  · unfold logEvent at h
    cases hf : db.links.find? (fun l => l.trackingId == tid && l.isActive) with
    | none => rw [hf] at h; simp at h
    | some cr0 =>
      rw [hf] at h
      simp only [Option.some.injEq, Prod.mk.injEq] at h
      obtain ⟨hdb, hcr⟩ := h
      subst hcr
      rw [← hdb]
  · intro hip
    simp [hashIp, hip]
  · intro hip
    simp [hashIp, hip]
  · rintro hmem heq
    have hipne : ip.isEmpty = false := by
      rcases hmem with hm | hm <;> cases ip <;> simp_all
    rw [hashIp, hipne] at heq
    simp only [Bool.false_eq_true, if_false] at heq
    rcases hmem with hm | hm
    · exact sha256Hex_ne_of_nonhex_mem hm (by decide) heq
    · exact sha256Hex_ne_of_nonhex_mem hm (by decide) heq

theorem c8_witness :
    ('.' ∈ ipEx ∨ ':' ∈ ipEx) ∧
    dbAfterOpenEx.events = dbActiveLink.events ++
      [{ linkId := linkActiveEx.id, eventType := evOPEN, userAgent := uaEx.take 255
         ipHash := hashIp ipEx }] ∧
    hashIp ipEx ≠ ipEx := by
  have h := c8_capture_hashes_source_ip dbActiveLink 42 evOPEN uaEx ipEx dbAfterOpenEx
    linkActiveEx (by rfl)
  exact ⟨Or.inl (by decide), h.1, h.2.2.2 (Or.inl (by decide))⟩

theorem logEvent_some_spec {tid : Nat} {t ua ip : Str} {db db' : Db} {cr : CampaignRecipient}
    (h : logEvent tid t ua ip db = some (db', cr)) :
    db.links.find? (fun l => l.trackingId == tid && l.isActive) = some cr ∧
    db' = { db with events := db.events ++
      [{ linkId := cr.id, eventType := t, userAgent := ua.take 255, ipHash := hashIp ip }] } := by
  unfold logEvent at h
  cases hf : db.links.find? (fun l => l.trackingId == tid && l.isActive) with
  | none => rw [hf] at h; simp at h
  | some cr0 =>
    rw [hf] at h
    simp only [Option.some.injEq, Prod.mk.injEq] at h
    obtain ⟨hdb, hcr⟩ := h
    subst hcr
    exact ⟨rfl, hdb.symm⟩

theorem toFinset_card_le_one_of_const {l : List Nat} {a : Nat} (h : ∀ x ∈ l, x = a) :
    l.toFinset.card ≤ 1 := by
  have hsub : l.toFinset ⊆ {a} := by
    intro x hx
    rw [List.mem_toFinset] at hx
    rw [Finset.mem_singleton]
    exact h x hx
  calc l.toFinset.card ≤ ({a} : Finset Nat).card := Finset.card_le_card hsub
    _ = 1 := Finset.card_singleton a

theorem linkInCampaign_congr {db dbx : Db} (c : Nat) (hlk : dbx.links = db.links) :
    ∀ x, linkInCampaign dbx c x = linkInCampaign db c x := by
  intro x
  unfold linkInCampaign
  rw [hlk]

theorem uniqueEventCount_append_le (db dbx : Db) (c : Nat) (tt : Str) (ex : List EventRec)
    (a : Nat) (hev : dbx.events = db.events ++ ex) (hlk : dbx.links = db.links)
    (hex : ∀ e ∈ ex, e.linkId = a) :
    uniqueEventCount dbx c tt ≤ uniqueEventCount db c tt + 1 := by
  unfold uniqueEventCount
  rw [hev]
  simp only [linkInCampaign_congr c hlk]
  rw [List.filter_append, List.map_append, List.toFinset_append]
  refine le_trans (Finset.card_union_le _ _) ?_
  have hone : (((ex.filter (fun e => e.eventType == tt && linkInCampaign db c e.linkId)).map
      (fun e => e.linkId)).toFinset).card ≤ 1 := by
    refine toFinset_card_le_one_of_const (a := a) ?_
    intro x hx
    rw [List.mem_map] at hx
    obtain ⟨e, he, rfl⟩ := hx
    exact hex e (List.mem_of_mem_filter he)
  omega

/-- Claim C7: campaign metrics count distinct links, not raw events:
recording the same link's event three more times via the capture endpoint
grows the raw `Event` table by exactly 3 while the campaign detail view's
unique-opens / unique-clicks / unique-reports metric for any campaign grows
by at most 1. -/
theorem c7_metrics_count_distinct_links (db db1 db2 db3 : Db) (tid c : Nat)
    (t ua1 ip1 ua2 ip2 ua3 ip3 : Str) (cr1 cr2 cr3 : CampaignRecipient)
    (h1 : logEvent tid t ua1 ip1 db = some (db1, cr1))
    (h2 : logEvent tid t ua2 ip2 db1 = some (db2, cr2))
    (h3 : logEvent tid t ua3 ip3 db2 = some (db3, cr3)) :
    db3.events.length = db.events.length + 3 ∧
    uniqueEventCount db3 c t ≤ uniqueEventCount db c t + 1 ∧
    (t = evOPEN → (campaignDetailMetrics db3 c).uniqueOpens ≤
      (campaignDetailMetrics db c).uniqueOpens + 1) ∧
    (t = evCLICK → (campaignDetailMetrics db3 c).uniqueClicks ≤
      (campaignDetailMetrics db c).uniqueClicks + 1) ∧
    (t = evREPORT → (campaignDetailMetrics db3 c).uniqueReports ≤
      (campaignDetailMetrics db c).uniqueReports + 1) := by
  obtain ⟨hf1, hdb1⟩ := logEvent_some_spec h1
  subst hdb1
  obtain ⟨hf2, hdb2⟩ := logEvent_some_spec h2
  subst hdb2
  obtain ⟨hf3, hdb3⟩ := logEvent_some_spec h3
  subst hdb3
  have hcr2 : cr1 = cr2 := Option.some.inj (hf1.symm.trans hf2)
  subst hcr2
  have hcr3 : cr1 = cr3 := Option.some.inj (hf1.symm.trans hf3)
  subst hcr3
  set e1 : EventRec :=
    { linkId := cr1.id, eventType := t, userAgent := ua1.take 255, ipHash := hashIp ip1 } with he1
  set e2 : EventRec :=
    { linkId := cr1.id, eventType := t, userAgent := ua2.take 255, ipHash := hashIp ip2 } with he2
  set e3 : EventRec :=
    { linkId := cr1.id, eventType := t, userAgent := ua3.take 255, ipHash := hashIp ip3 } with he3
  have hev : (db.events ++ [e1]) ++ [e2] ++ [e3] = db.events ++ ([e1] ++ [e2] ++ [e3]) := by
    simp [List.append_assoc]
  have hcnt : ∀ tt, uniqueEventCount
      { db with events := db.events ++ [e1] ++ [e2] ++ [e3] } c tt ≤
      uniqueEventCount db c tt + 1 := by
    intro tt
    refine uniqueEventCount_append_le db _ c tt ([e1] ++ [e2] ++ [e3]) cr1.id ?_ rfl ?_
    · exact hev
    · intro e he
      simp only [List.mem_append, List.mem_singleton] at he
      rcases he with (he | he) | he <;> subst he <;> rfl
  refine ⟨?_, hcnt t, fun ht => ?_, fun ht => ?_, fun ht => ?_⟩
  · simp
  · subst ht; exact hcnt evOPEN
  · subst ht; exact hcnt evCLICK
  · subst ht; exact hcnt evREPORT

theorem c7_witness :
    dbAfterOpen3Ex.events.length = dbActiveLink.events.length + 3 ∧
    uniqueEventCount dbAfterOpen3Ex 7 evOPEN ≤ uniqueEventCount dbActiveLink 7 evOPEN + 1 ∧
    (campaignDetailMetrics dbAfterOpen3Ex 7).uniqueOpens ≤
      (campaignDetailMetrics dbActiveLink 7).uniqueOpens + 1 := by
  have h := c7_metrics_count_distinct_links dbActiveLink dbAfterOpenEx dbAfterOpen2Ex
    dbAfterOpen3Ex 42 7 evOPEN uaEx ipEx uaEx ipEx uaEx ipEx linkActiveEx linkActiveEx
    linkActiveEx (by rfl) (by rfl) (by rfl)
  exact ⟨h.1, h.2.1, h.2.2.1 rfl⟩

theorem infix_append_trichotomy {α : Type _} {xs ys zs : List α} (h : xs <:+: ys ++ zs) :
    xs <:+: ys ∨ xs <:+: zs ∨ ∃ a b, xs = a ++ b ∧ b ≠ [] ∧ b <+: zs := by
  obtain ⟨s, t, hst⟩ := h
  rcases List.append_eq_append_iff.mp hst with ⟨a', ha1, _⟩ | ⟨c', hc1, hc2⟩
  · left
    exact ⟨s, a', by rw [ha1, List.append_assoc]⟩
  · rcases List.append_eq_append_iff.mp hc1 with ⟨a2, hb1, hb2⟩ | ⟨c2, _, hd2⟩
    · by_cases hcnil : c' = []
      · subst hcnil
        left
        exact ⟨s, [], by rw [hb1, hb2]; simp⟩
      · right; right
        exact ⟨a2, c', hb2, hcnil, ⟨t, hc2.symm⟩⟩
    · right; left
      exact ⟨c2, t, by rw [hc2, hd2, List.append_assoc]⟩

theorem footerMarker_infix_footerText (u : Str) : footerMarker <:+: footerText u := by
  have h1 : footerMarker <:+:
      str "\n\nIf you did not expect this message, please contact IT Support or report it here: " := by
    decide
  have h2 : (str "\n\nIf you did not expect this message, please contact IT Support or report it here: ") <:+:
      footerText u := ⟨[], u ++ str "\n", by simp [footerText, List.append_assoc]⟩
  exact h1.trans h2

theorem dispatchBodyText_general (tpl : EmailTemplate) (ctx : RecipientCtx)
    (clickUrl reportUrl : Str) (hG : tpl.scenKind = scenGENERAL) :
    dispatchBodyText tpl ctx clickUrl reportUrl = generalPlainCore tpl ctx ++ kindRegardsSig := by
  simp only [dispatchBodyText, hG]
  rfl

theorem dispatchBodyText_payroll (tpl : EmailTemplate) (ctx : RecipientCtx)
    (clickUrl reportUrl : Str) (hP : tpl.scenKind = scenPAYROLL) :
    dispatchBodyText tpl ctx clickUrl reportUrl =
      (buildPayrollBody tpl ctx clickUrl reportUrl).1 ++ footerText reportUrl := by
  simp only [dispatchBodyText, hP]
  rfl

/-- Claim C4: for every recipient context and every pair of URLs, the
plain-text body assembled by dispatch for a GENERAL-scenario template never
contains the "if you did not expect this message" report footer (provided
the template's rendered body text does not itself contain that footer
phrase), while the body assembled for a PAYROLL-scenario template always
ends with the footer, which carries the report URL. -/
theorem c4_general_no_footer_payroll_footer
    (tplG tplP : EmailTemplate) (ctx : RecipientCtx) (clickUrl reportUrl : Str)
    (hG : tplG.scenKind = scenGENERAL)
    (hP : tplP.scenKind = scenPAYROLL)
    (hbody : ¬ footerMarker <:+: generalPlainCore tplG ctx) :
    ¬ footerText reportUrl <:+: dispatchBodyText tplG ctx clickUrl reportUrl ∧
    footerText reportUrl <:+ dispatchBodyText tplP ctx clickUrl reportUrl ∧
    reportUrl <:+: footerText reportUrl := by
  refine ⟨?_, ?_, ?_⟩
  · intro hcont
    rw [dispatchBodyText_general tplG ctx clickUrl reportUrl hG] at hcont
    have hm : footerMarker <:+: generalPlainCore tplG ctx ++ kindRegardsSig :=
      (footerMarker_infix_footerText reportUrl).trans hcont
    rcases infix_append_trichotomy hm with h1 | h2 | ⟨a, b, hab, hbne, hbpre⟩
    · exact hbody h1
    · have hle := h2.length_le
      revert hle
      decide
    · obtain ⟨tl, htl⟩ := hbpre
      cases b with
      | nil => exact hbne rfl
      | cons bh bt =>
        have hcons : bh :: (bt ++ tl) = kindRegardsSig := by simpa using htl
        have hbh : bh = '\n' := by
          simpa [kindRegardsSig, str] using congrArg (fun l => l.headD ' ') hcons
        have hmem : '\n' ∈ footerMarker := by
          rw [hab, hbh]
          simp
        revert hmem
        decide
  · rw [dispatchBodyText_payroll tplP ctx clickUrl reportUrl hP]
    exact List.suffix_append _ _
  · have hft : footerText reportUrl =
        (str "\n\nIf you did not expect this message, please contact IT Support or report it here: ") ++
          reportUrl ++ str "\n" := rfl
    rw [hft]
    exact List.infix_append _ _ _

theorem c4_witness :
    (¬ footerText (str "/campaigns/t/42/report/") <:+:
        dispatchBodyText tplGeneralEx ctxEx (str "/campaigns/t/42/click/")
          (str "/campaigns/t/42/report/")) ∧
    footerText (str "/campaigns/t/42/report/") <:+
      dispatchBodyText tplPayrollEx ctxEx (str "/campaigns/t/42/click/")
        (str "/campaigns/t/42/report/") ∧
    (str "/campaigns/t/42/report/") <:+: footerText (str "/campaigns/t/42/report/") :=
  c4_general_no_footer_payroll_footer tplGeneralEx tplPayrollEx ctxEx
    (str "/campaigns/t/42/click/") (str "/campaigns/t/42/report/") (by rfl) (by rfl) (by decide)

theorem validEmail_ne_nil {e : Str} (h : validEmail e = true) : e ≠ [] := by
  intro he
  rw [he] at h
  exact absurd h (by decide)

theorem getOrCreateRecipient_found {email f l d : Str} {db : Db} {r : Recipient}
    (h : db.recipients.find? (fun x => x.email == email) = some r) :
    getOrCreateRecipient email f l d db = (r, false, db) := by
  unfold getOrCreateRecipient
  rw [h]

theorem getOrCreateRecipient_fresh {email f l d : Str} {db : Db}
    (h : db.recipients.find? (fun x => x.email == email) = none) :
    getOrCreateRecipient email f l d db =
      ({ id := db.nextRecipientId, email := email, firstName := f.take 100
         lastName := l.take 100, department := d.take 100 }, true,
       { db with recipients := db.recipients ++ [{ id := db.nextRecipientId, email := email, firstName := f.take 100, lastName := l.take 100, department := d.take 100 }]
                 nextRecipientId := db.nextRecipientId + 1 }) := by
  unfold getOrCreateRecipient
  rw [h]

theorem getOrCreateLink_found {cId rId : Nat} {db : Db} {l : CampaignRecipient}
    (h : db.links.find? (fun x => x.campaignId == cId && x.recipientId == rId) = some l) :
    getOrCreateLink cId rId db = (l, false, db) := by
  unfold getOrCreateLink
  rw [h]

theorem getOrCreateLink_fresh {cId rId : Nat} {db : Db}
    (h : db.links.find? (fun x => x.campaignId == cId && x.recipientId == rId) = none) :
    getOrCreateLink cId rId db =
      ({ id := db.nextLinkId, campaignId := cId, recipientId := rId
         trackingId := db.nextTrackingId, isActive := true }, true,
       { db with links := db.links ++ [{ id := db.nextLinkId, campaignId := cId, recipientId := rId, trackingId := db.nextTrackingId, isActive := true }]
                 nextLinkId := db.nextLinkId + 1, nextTrackingId := db.nextTrackingId + 1 }) := by
  unfold getOrCreateLink
  rw [h]

theorem settled_spec {cId : Nat} {db : Db} {k : Str} (h : settled cId db k = true) :
    ∃ r, db.recipients.find? (fun x => x.email == k) = some r ∧
      ∃ l, db.links.find? (fun x => x.campaignId == cId && x.recipientId == r.id) = some l := by
  unfold settled at h
  cases hf : db.recipients.find? (fun x => x.email == k) with
  | none => rw [hf] at h; simp at h
  | some r =>
    rw [hf] at h
    have h2 : (db.links.find? (fun x => x.campaignId == cId && x.recipientId == r.id)).isSome =
        true := h
    rw [Option.isSome_iff_exists] at h2
    obtain ⟨l, hl⟩ := h2
    exact ⟨r, rfl, l, hl⟩

theorem processRow_success_shape (cId : Nat) (header row : List Str) (st : ImportState)
    (hval : validEmail (strip (rowGet header row (str "email"))) = true)
    (hns : st.seen.contains (emailKey header row) = false)
    (hlim : st.created + st.linked < maxRecipients) :
    processRow cId header row st =
      (let gr := getOrCreateRecipient (emailKey header row)
          (strip (rowGet header row (str "first_name")))
          (strip (rowGet header row (str "last_name")))
          (strip (rowGet header row (str "department"))) st.db
       let gl := getOrCreateLink cId gr.1.id gr.2.2
       .ok { db := gl.2.2
             created := if gr.2.1 then st.created + 1 else st.created
             linked := if gl.2.1 then st.linked + 1 else st.linked
             errorRows := st.errorRows, errorDetails := st.errorDetails
             seen := st.seen ++ [emailKey header row], rowNum := st.rowNum + 1 }) := by
  have hemail : (strip (rowGet header row (str "email"))).isEmpty = false := by
    cases hh : strip (rowGet header row (str "email")) with
    | nil => exact absurd hh (validEmail_ne_nil hval)
    | cons a l => rfl
  simp only [emailKey] at hns
  simp only [processRow, hemail, hval, hns, Bool.not_true, Bool.false_eq_true, if_false,
    if_neg (Nat.not_le.mpr hlim), emailKey]

theorem processRow_limit (cId : Nat) (header row : List Str) (st : ImportState)
    (hval : validEmail (strip (rowGet header row (str "email"))) = true)
    (hns : st.seen.contains (emailKey header row) = false)
    (hlim : maxRecipients ≤ st.created + st.linked) :
    processRow cId header row st = .error msgLimitExceeded := by
  have hemail : (strip (rowGet header row (str "email"))).isEmpty = false := by
    cases hh : strip (rowGet header row (str "email")) with
    | nil => exact absurd hh (validEmail_ne_nil hval)
    | cons a l => rfl
  simp only [emailKey] at hns
  simp only [processRow, hemail, hval, hns, Bool.not_true, Bool.false_eq_true, if_false,
    if_pos hlim]

theorem processRow_settled (cId : Nat) (header row : List Str) (st : ImportState)
    (hval : validEmail (strip (rowGet header row (str "email"))) = true)
    (hns : st.seen.contains (emailKey header row) = false)
    (hlim : st.created + st.linked < maxRecipients)
    (hst : settled cId st.db (emailKey header row) = true) :
    processRow cId header row st =
      .ok { st with seen := st.seen ++ [emailKey header row], rowNum := st.rowNum + 1 } := by
  obtain ⟨r, hr, l, hl⟩ := settled_spec hst
  rw [processRow_success_shape cId header row st hval hns hlim]
  simp only [getOrCreateRecipient_found hr, getOrCreateLink_found hl]
  rfl

theorem processRow_fresh (cId : Nat) (header row : List Str) (st : ImportState)
    (hval : validEmail (strip (rowGet header row (str "email"))) = true)
    (hns : st.seen.contains (emailKey header row) = false)
    (hlim : st.created + st.linked < maxRecipients)
    (hr : st.db.recipients.find? (fun x => x.email == emailKey header row) = none)
    (hidinv : ∀ x ∈ st.db.links, x.recipientId < st.db.nextRecipientId) :
    processRow cId header row st =
      .ok { db := { st.db with
              recipients := st.db.recipients ++ [{ id := st.db.nextRecipientId, email := emailKey header row, firstName := (strip (rowGet header row (str "first_name"))).take 100, lastName := (strip (rowGet header row (str "last_name"))).take 100, department := (strip (rowGet header row (str "department"))).take 100 }]
              links := st.db.links ++ [{ id := st.db.nextLinkId, campaignId := cId, recipientId := st.db.nextRecipientId, trackingId := st.db.nextTrackingId, isActive := true }]
              nextRecipientId := st.db.nextRecipientId + 1
              nextLinkId := st.db.nextLinkId + 1
              nextTrackingId := st.db.nextTrackingId + 1 }
            created := st.created + 1, linked := st.linked + 1
            errorRows := st.errorRows, errorDetails := st.errorDetails
            seen := st.seen ++ [emailKey header row], rowNum := st.rowNum + 1 } := by
  have hlf : st.db.links.find?
      (fun x => x.campaignId == cId && x.recipientId == st.db.nextRecipientId) = none := by
    rw [List.find?_eq_none]
    intro x hx
    have hlt := hidinv x hx
    simp only [Bool.and_eq_true, beq_iff_eq, not_and]
    intro _
    omega
  rw [processRow_success_shape cId header row st hval hns hlim]
  simp only [getOrCreateRecipient_fresh hr]
  unfold getOrCreateLink
  simp only [hlf]
  rfl

theorem dropWhile_eq_self_of_not {p : Char → Bool} {s : Str} (h : ∀ c ∈ s, p c = false) :
    s.dropWhile p = s := by
  cases s with
  | nil => rfl
  | cons a l => simp [List.dropWhile_cons, h a (by simp)]

theorem strip_eq_self {s : Str} (h : ∀ c ∈ s, c.isWhitespace = false) : strip s = s := by
  unfold strip
  rw [dropWhile_eq_self_of_not h,
    dropWhile_eq_self_of_not (by intro c hc; exact h c (List.mem_reverse.mp hc)),
    List.reverse_reverse]

theorem lowerStr_eq_self {s : Str} (h : ∀ c ∈ s, c.toLower = c) : lowerStr s = s := by
  unfold lowerStr
  calc s.map Char.toLower = s.map id := List.map_congr_left h
    _ = s := List.map_id s

theorem freshEmail_mem {i : Nat} {c : Char} (hc : c ∈ freshEmail i) :
    c = 'u' ∨ c = 'a' ∨ c ∈ str "@x.com" := by
  simp only [freshEmail, List.mem_cons, List.mem_append, List.mem_replicate] at hc
  rcases hc with rfl | (⟨_, rfl⟩ | hm)
  · exact Or.inl rfl
  · exact Or.inr (Or.inl rfl)
  · exact Or.inr (Or.inr hm)

theorem strip_freshEmail (i : Nat) : strip (freshEmail i) = freshEmail i := by
  refine strip_eq_self ?_
  intro c hc
  rcases freshEmail_mem hc with rfl | rfl | hm
  · decide
  · decide
  · exact (by decide : ∀ x ∈ str "@x.com", Char.isWhitespace x = false) c hm

theorem lowerStr_freshEmail (i : Nat) : lowerStr (freshEmail i) = freshEmail i := by
  refine lowerStr_eq_self ?_
  intro c hc
  rcases freshEmail_mem hc with rfl | rfl | hm
  · decide
  · decide
  · exact (by decide : ∀ x ∈ str "@x.com", Char.toLower x = x) c hm

theorem rowGet_single (x : Str) : rowGet [str "email"] [x] (str "email") = x := by
  simp [rowGet, List.find?]

theorem emailKey_fresh (i : Nat) : emailKey [str "email"] [freshEmail i] = freshEmail i := by
  unfold emailKey
  rw [rowGet_single, strip_freshEmail, lowerStr_freshEmail]

theorem splitOnChar_ne_nil (sep : Char) (s : Str) : splitOnChar sep s ≠ [] := by
  induction s with
  | nil => simp [splitOnChar]
  | cons c rest ih =>
    simp only [splitOnChar]
    cases h : splitOnChar sep rest with
    | nil => simp
    | cons a t => by_cases hc : c = sep <;> simp [hc]

theorem splitOnChar_append_no_sep {sep : Char} {xs : Str} (h : ∀ c ∈ xs, c ≠ sep) (ys : Str) :
    splitOnChar sep (xs ++ ys) = (splitOnChar sep ys).modifyHead (fun hd => xs ++ hd) := by
  induction xs with
  | nil =>
    cases hsp : splitOnChar sep ys with
    | nil => exact absurd hsp (splitOnChar_ne_nil sep ys)
    | cons a t => simp [List.modifyHead, hsp]
  | cons c rest ih =>
    have hc : ¬ c = sep := h c (by simp)
    have hrest : ∀ x ∈ rest, x ≠ sep := fun x hx => h x (by simp [hx])
    simp only [List.cons_append, splitOnChar, List.append_eq]
    rw [ih hrest]
    cases hsp : splitOnChar sep ys with
    | nil => exact absurd hsp (splitOnChar_ne_nil sep ys)
    | cons a t => simp [List.modifyHead, hc]

theorem validEmail_freshEmail (i : Nat) : validEmail (freshEmail i) = true := by
  have hxs : ∀ c ∈ ('u' :: List.replicate i 'a'), c ≠ '@' := by
    intro c hc
    rcases List.mem_cons.mp hc with rfl | hm
    · decide
    · rw [List.eq_of_mem_replicate hm]; decide
  have h1 : splitOnChar '@' (freshEmail i) =
      [('u' :: List.replicate i 'a') ++ [], str "x.com"] := by
    have hsplit : freshEmail i = ('u' :: List.replicate i 'a') ++ str "@x.com" := by
      simp [freshEmail]
    rw [hsplit, splitOnChar_append_no_sep hxs]
    have h0 : splitOnChar '@' (str "@x.com") = [[], str "x.com"] := by decide
    rw [h0]
    simp [List.modifyHead]
  simp only [validEmail, h1]
  simp only [List.append_nil, List.isEmpty_cons, Bool.not_false, Bool.true_and,
    Bool.and_eq_true]
  refine ⟨⟨?_, by decide⟩, by decide⟩
  rw [List.all_eq_true]
  intro c hc
  rcases List.mem_cons.mp hc with rfl | hm
  · decide
  · rw [List.eq_of_mem_replicate hm]; decide

theorem processRows_fresh_abort (cId : Nat) (header : List Str) :
    ∀ (rows : List (List Str)) (st : ImportState),
      (∀ row ∈ rows, validEmail (strip (rowGet header row (str "email"))) = true) →
      (rows.map (emailKey header)).Nodup →
      (∀ row ∈ rows, emailKey header row ∉ st.seen) →
      (∀ row ∈ rows,
        st.db.recipients.find? (fun x => x.email == emailKey header row) = none) →
      (∀ x ∈ st.db.links, x.recipientId < st.db.nextRecipientId) →
      rows ≠ [] →
      maxRecipients ≤ st.created + st.linked + 2 * (rows.length - 1) →
      processRows cId header rows st = .error msgLimitExceeded := by
  intro rows
  induction rows with
  | nil => intro st _ _ _ _ _ hne _; exact absurd rfl hne
  | cons row rest ih =>
    intro st hval hnd hseen hfresh hidinv _ hthr
    have hvalr := hval row (by simp)
    have hnsr : st.seen.contains (emailKey header row) = false := by
      simpa using hseen row (by simp)
    by_cases hlim : maxRecipients ≤ st.created + st.linked
    · have hrow := processRow_limit cId header row st hvalr hnsr hlim
      simp [processRows, hrow]
    · push_neg at hlim
      have hrow := processRow_fresh cId header row st hvalr hnsr hlim
        (hfresh row (by simp)) hidinv
      have hrest_ne : rest ≠ [] := by
        intro hre
        subst hre
        simp at hthr
        omega
      simp only [processRows, hrow]
      set k := emailKey header row with hk
      set newr : Recipient := { id := st.db.nextRecipientId, email := k, firstName := (strip (rowGet header row (str "first_name"))).take 100, lastName := (strip (rowGet header row (str "last_name"))).take 100, department := (strip (rowGet header row (str "department"))).take 100 } with hnewr
      have hknot : k ∉ rest.map (emailKey header) := by
        have := hnd
        rw [List.map_cons, List.nodup_cons] at this
        exact this.1
      apply ih
      · intro r hr; exact hval r (by simp [hr])
      · have := hnd
        rw [List.map_cons, List.nodup_cons] at this
        exact this.2
      · intro r hr
        simp only [List.mem_append, List.mem_singleton, not_or]
        constructor
        · exact hseen r (by simp [hr])
        · intro hkeq
          exact hknot (hkeq ▸ List.mem_map_of_mem (emailKey header) hr)
      · intro r hr
        rw [List.find?_append]
        rw [hfresh r (by simp [hr])]
        simp only [Option.none_or]
        have hne2 : (newr.email == emailKey header r) = false := by
          simp only [hnewr, beq_eq_false_iff_ne]
          intro hkeq
          exact hknot (hkeq ▸ List.mem_map_of_mem (emailKey header) hr)
        simp [List.find?, hne2]
      · dsimp only
        intro x hx
        simp only [List.mem_append, List.mem_singleton] at hx
        rcases hx with hx | rfl
        · have := hidinv x hx
          omega
        · simp
      · exact hrest_ne
      · dsimp only
        simp only [List.length_cons] at hthr
        have hlen : 1 ≤ rest.length := by
          cases hre : rest with
          | nil => exact absurd hre hrest_ne
          | cons a b => simp
        omega

theorem freshEmail_length (n : Nat) : (freshEmail n).length = n + 7 := by
  simp [freshEmail, str]

/-- Claim C2 (code evidence): the import's capacity check compares
`created + linked` (which double-counts fresh rows) against the cap, so a
CSV with only 501 data rows - well below the documented limit of 1000 -
aborts with the limit-exceeded failure when all rows are fresh. -/
theorem c2_limit_aborts_501_row_import :
    csv501Ex.rows.length = 501 ∧
    csv501Ex.rows.length ≤ maxRecipients ∧
    importRecipientsFromCsv csv501Ex 1 emptyDb = .error msgLimitExceeded := by
  have hlen : csv501Ex.rows.length = 501 := by
    simp [csv501Ex]
  refine ⟨hlen, by rw [hlen]; decide, ?_⟩
  have hrows : ∀ row ∈ csv501Ex.rows, ∃ i, row = [freshEmail i] := by
    intro row hr
    simp only [csv501Ex, List.mem_map, List.mem_range] at hr
    obtain ⟨i, _, rfl⟩ := hr
    exact ⟨i, rfl⟩
  have habort : processRows 1 csv501Ex.header csv501Ex.rows
      { db := emptyDb, created := 0, linked := 0, errorRows := [], errorDetails := []
        seen := [], rowNum := 1 } = .error msgLimitExceeded := by
    apply processRows_fresh_abort
    · intro row hr
      obtain ⟨i, rfl⟩ := hrows row hr
      show validEmail (strip (rowGet [str "email"] [freshEmail i] (str "email"))) = true
      rw [rowGet_single, strip_freshEmail]
      exact validEmail_freshEmail i
    · have hmap : csv501Ex.rows.map (emailKey csv501Ex.header) =
          (List.range 501).map freshEmail := by
        simp only [csv501Ex]
        rw [List.map_map]
        apply List.map_congr_left
        intro i _
        exact emailKey_fresh i
      rw [hmap]
      have hinj : Function.Injective freshEmail := by
        intro i j hij
        have := congrArg List.length hij
        rw [freshEmail_length, freshEmail_length] at this
        omega
      exact (List.nodup_range 501).map hinj
    · intro row _
      simp
    · intro row _
      rfl
    · intro x hx
      simp [emptyDb] at hx
    · intro hre
      rw [hre] at hlen
      simp at hlen
    · rw [hlen]
      decide
  have hh1 : csv501Ex.header.isEmpty = false := rfl
  have hh2 : csv501Ex.header.contains (str "email") = true := by decide
  have hh3 : str "email" ∈ csv501Ex.header := by decide
  simp [importRecipientsFromCsv, hh1, hh2, hh3, habort]

theorem settled_mono {cId : Nat} {db db2 : Db} {k : Str} (h : settled cId db k = true)
    (hr : ∃ dr, db2.recipients = db.recipients ++ dr)
    (hl : ∃ dl, db2.links = db.links ++ dl) : settled cId db2 k = true := by
  obtain ⟨r, hfr, l, hfl⟩ := settled_spec h
  obtain ⟨dr, hdr⟩ := hr
  obtain ⟨dl, hdl⟩ := hl
  unfold settled
  rw [hdr, List.find?_append, hfr]
  show (db2.links.find? (fun x => x.campaignId == cId && x.recipientId == r.id)).isSome = true
  rw [hdl, List.find?_append, hfl]
  rfl

theorem processRow_valid_spec (cId : Nat) (header row : List Str) (st : ImportState)
    (hval : validEmail (strip (rowGet header row (str "email"))) = true)
    (hns : st.seen.contains (emailKey header row) = false)
    (hlim : st.created + st.linked < maxRecipients) :
    ∃ st', processRow cId header row st = .ok st' ∧
      settled cId st'.db (emailKey header row) = true ∧
      (∃ dr, st'.db.recipients = st.db.recipients ++ dr) ∧
      (∃ dl, st'.db.links = st.db.links ++ dl) ∧
      st'.seen = st.seen ++ [emailKey header row] ∧
      st'.rowNum = st.rowNum + 1 := by
  rw [processRow_success_shape cId header row st hval hns hlim]
  cases hfr : st.db.recipients.find? (fun x => x.email == emailKey header row) with
  | some r =>
    simp only [getOrCreateRecipient_found hfr]
    cases hfl : st.db.links.find?
        (fun x => x.campaignId == cId && x.recipientId == r.id) with
    | some l =>
      simp only [getOrCreateLink_found hfl]
      refine ⟨_, rfl, ?_, ⟨[], by simp⟩, ⟨[], by simp⟩, rfl, rfl⟩
      unfold settled
      dsimp only
      simp [hfr, hfl]
    | none =>
      simp only [getOrCreateLink_fresh hfl]
      refine ⟨_, rfl, ?_, ⟨[], by simp⟩, ⟨_, rfl⟩, rfl, rfl⟩
      unfold settled
      dsimp only
      simp [hfr, List.find?_append, hfl, List.find?]
  | none =>
    simp only [getOrCreateRecipient_fresh hfr]
    unfold getOrCreateLink
    dsimp only
    cases hfl : st.db.links.find?
        (fun x => x.campaignId == cId && x.recipientId == st.db.nextRecipientId) with
    | some l =>
      simp only [hfl]
      refine ⟨_, rfl, ?_, ⟨_, rfl⟩, ⟨[], by simp⟩, rfl, rfl⟩
      unfold settled
      dsimp only
      simp [List.find?_append, hfr, hfl, List.find?]
    | none =>
      simp only [hfl]
      refine ⟨_, rfl, ?_, ⟨_, rfl⟩, ⟨_, rfl⟩, rfl, rfl⟩
      unfold settled
      dsimp only
      simp [List.find?_append, hfr, hfl, List.find?]

theorem processRows_ok_coverage (cId : Nat) (header : List Str) :
    ∀ (rows : List (List Str)) (st stf : ImportState),
      processRows cId header rows st = .ok stf →
      (∀ row ∈ rows, validEmail (strip (rowGet header row (str "email"))) = true) →
      (rows.map (emailKey header)).Nodup →
      (∀ row ∈ rows, emailKey header row ∉ st.seen) →
      (∀ row ∈ rows, settled cId stf.db (emailKey header row) = true) ∧
      (∃ dr, stf.db.recipients = st.db.recipients ++ dr) ∧
      (∃ dl, stf.db.links = st.db.links ++ dl) ∧
      stf.rowNum = st.rowNum + rows.length := by
  intro rows
  induction rows with
  | nil =>
    intro st stf h _ _ _
    have hst : st = stf := by
      simpa [processRows] using h
    subst hst
    exact ⟨by simp, ⟨[], by simp⟩, ⟨[], by simp⟩, by simp⟩
  | cons row rest ih =>
    intro st stf h hval hnd hseen
    have hvalr := hval row (by simp)
    have hnsr : st.seen.contains (emailKey header row) = false := by
      simpa using hseen row (by simp)
    have hlim : st.created + st.linked < maxRecipients := by
      by_contra hge
      push_neg at hge
      have hrow := processRow_limit cId header row st hvalr hnsr hge
      rw [processRows, hrow] at h
      simp at h
    obtain ⟨st1, hrow, hsettled, hdr1, hdl1, hseen1, hrn1⟩ :=
      processRow_valid_spec cId header row st hvalr hnsr hlim
    rw [processRows, hrow] at h
    dsimp only at h
    have hknot : emailKey header row ∉ rest.map (emailKey header) := by
      have := hnd
      rw [List.map_cons, List.nodup_cons] at this
      exact this.1
    have hrest := ih st1 stf h
      (fun r hr => hval r (by simp [hr]))
      (by
        have := hnd
        rw [List.map_cons, List.nodup_cons] at this
        exact this.2)
      (by
        intro r hr
        rw [hseen1]
        simp only [List.mem_append, List.mem_singleton, not_or]
        refine ⟨hseen r (by simp [hr]), ?_⟩
        intro hkeq
        exact hknot (hkeq ▸ List.mem_map_of_mem (emailKey header) hr))
    obtain ⟨hsetf, hdr2, hdl2, hrnf⟩ := hrest
    obtain ⟨dr1, hdr1⟩ := hdr1
    obtain ⟨dl1, hdl1⟩ := hdl1
    obtain ⟨dr2, hdr2⟩ := hdr2
    obtain ⟨dl2, hdl2⟩ := hdl2
    refine ⟨?_, ⟨dr1 ++ dr2, by rw [hdr2, hdr1, List.append_assoc]⟩,
      ⟨dl1 ++ dl2, by rw [hdl2, hdl1, List.append_assoc]⟩, ?_⟩
    · intro r hr
      rcases List.mem_cons.mp hr with rfl | hm
      · exact settled_mono hsettled ⟨dr2, hdr2⟩ ⟨dl2, hdl2⟩
      · exact hsetf r hm
    · rw [hrnf, hrn1]
      simp only [List.length_cons]
      omega

theorem processRows_settled_noop (cId : Nat) (header : List Str) :
    ∀ (rows : List (List Str)) (st : ImportState),
      (∀ row ∈ rows, validEmail (strip (rowGet header row (str "email"))) = true) →
      (rows.map (emailKey header)).Nodup →
      (∀ row ∈ rows, emailKey header row ∉ st.seen) →
      (∀ row ∈ rows, settled cId st.db (emailKey header row) = true) →
      st.created = 0 → st.linked = 0 →
      ∃ seenf, processRows cId header rows st =
        .ok { st with seen := seenf, rowNum := st.rowNum + rows.length } := by
  intro rows
  induction rows with
  | nil =>
    intro st _ _ _ _ _ _
    exact ⟨st.seen, by simp [processRows]⟩
  | cons row rest ih =>
    intro st hval hnd hseen hsettled hc hl
    have hvalr := hval row (by simp)
    have hnsr : st.seen.contains (emailKey header row) = false := by
      simpa using hseen row (by simp)
    have hlim : st.created + st.linked < maxRecipients := by
      rw [hc, hl]
      decide
    have hrow := processRow_settled cId header row st hvalr hnsr hlim
      (hsettled row (by simp))
    rw [processRows, hrow]
    dsimp only
    have hknot : emailKey header row ∉ rest.map (emailKey header) := by
      have := hnd
      rw [List.map_cons, List.nodup_cons] at this
      exact this.1
    obtain ⟨seenf, hrest⟩ := ih
      { st with seen := st.seen ++ [emailKey header row], rowNum := st.rowNum + 1 }
      (fun r hr => hval r (by simp [hr]))
      (by
        have := hnd
        rw [List.map_cons, List.nodup_cons] at this
        exact this.2)
      (by
        intro r hr
        simp only [List.mem_append, List.mem_singleton, not_or]
        refine ⟨hseen r (by simp [hr]), ?_⟩
        intro hkeq
        exact hknot (hkeq ▸ List.mem_map_of_mem (emailKey header) hr))
      (fun r hr => hsettled r (by simp [hr]))
      hc hl
    rw [hrest]
    refine ⟨seenf, ?_⟩
    have harith : st.rowNum + 1 + rest.length = st.rowNum + (rest.length + 1) := by omega
    simp [harith]

theorem importRecipientsFromCsv_eq (file : CsvFile) (cId : Nat) (db : Db)
    (hne : file.header.isEmpty = false)
    (hcont : str "email" ∈ file.header) :
    importRecipientsFromCsv file cId db =
      (match processRows cId file.header file.rows
          { db := db, created := 0, linked := 0, errorRows := [], errorDetails := []
            seen := [], rowNum := 1 } with
       | .error e => .error e
       | .ok st =>
         if st.rowNum == 1 then .error msgNoDataRows
         else .ok (st.db, { created := st.created, linked := st.linked
                            errorRows := st.errorRows, errorDetails := st.errorDetails })) := by
  unfold importRecipientsFromCsv
  have h2 : file.header.contains (str "email") = true := by simpa using hcont
  simp [hne, h2, hcont]

/-- Claim C5: CSV import is idempotent per campaign and row: for a CSV whose
rows all carry well-formed, first-seen (non-duplicate-in-file) emails, if a
first import into a campaign succeeded then importing the same file again
returns `created = 0` and `linked = 0` with no row errors, and leaves the
database exactly as the first import left it (no new `Recipient` rows and
no new `CampaignRecipient` rows). -/
theorem c5_import_idempotent (file : CsvFile) (cId : Nat) (db db1 : Db) (res1 : ImportResult)
    (hvalid : ∀ row ∈ file.rows,
      validEmail (strip (rowGet file.header row (str "email"))) = true)
    (hnodup : (file.rows.map (emailKey file.header)).Nodup)
    (h1 : importRecipientsFromCsv file cId db = .ok (db1, res1)) :
    importRecipientsFromCsv file cId db1 =
      .ok (db1, { created := 0, linked := 0, errorRows := [], errorDetails := [] }) := by
  have hne : file.header.isEmpty = false := by
    by_contra hcontra
    rw [Bool.not_eq_false] at hcontra
    unfold importRecipientsFromCsv at h1
    simp [hcontra] at h1
  have hcont : str "email" ∈ file.header := by
    by_contra hnc
    have hcf : file.header.contains (str "email") = false := by simpa using hnc
    unfold importRecipientsFromCsv at h1
    simp [hne, hcf, hnc] at h1
  rw [importRecipientsFromCsv_eq file cId db hne hcont] at h1
  rw [importRecipientsFromCsv_eq file cId db1 hne hcont]
  cases hrun : processRows cId file.header file.rows
      { db := db, created := 0, linked := 0, errorRows := [], errorDetails := []
        seen := [], rowNum := 1 } with
  | error e => rw [hrun] at h1; simp at h1
  | ok stf =>
    rw [hrun] at h1
    dsimp only at h1
    by_cases hrn : (stf.rowNum == 1) = true
    · rw [if_pos hrn] at h1
      simp at h1
    · rw [if_neg hrn] at h1
      have hdb1 : stf.db = db1 := by
        have := h1
        simp only [Except.ok.injEq, Prod.mk.injEq] at this
        exact this.1
      obtain ⟨hsetf, _, _, hrnf⟩ := processRows_ok_coverage cId file.header file.rows _ stf
        hrun hvalid hnodup (by intro r _; simp)
      obtain ⟨seenf, hnoop⟩ := processRows_settled_noop cId file.header file.rows
        { db := db1, created := 0, linked := 0, errorRows := [], errorDetails := []
          seen := [], rowNum := 1 }
        hvalid hnodup (by intro r _; simp)
        (by
          intro r hr
          show settled cId db1 (emailKey file.header r) = true
          rw [← hdb1]
          exact hsetf r hr)
        rfl rfl
      rw [hnoop]
      dsimp only
      have hrlen : file.rows.length ≠ 0 := by
        intro h0
        exact hrn (by simp [hrnf, h0])
      have hcond : (1 + file.rows.length == 1) = false := by
        simp only [beq_eq_false_iff_ne]
        omega
      rw [hcond]
      rfl

theorem c5_witness :
    importRecipientsFromCsv csvSmallEx 1 dbSmall1 =
      .ok (dbSmall1, { created := 0, linked := 0, errorRows := [], errorDetails := [] }) :=
  c5_import_idempotent csvSmallEx 1 emptyDb dbSmall1 resSmall1 (by decide) (by decide) (by rfl)
